import Mathlib

/-!
Verification of the `perf-event-open` library against its specification.

The development shallowly embeds the Rust sources:
* `src/sample/rb/mod.rs`, `src/sample/rb/cow.rs` — the data ring buffer
  (`Rb::lending_pop`, `CowChunk`);
* `src/count/stat.rs` — the statistics decoder and read-buffer sizing;
* `src/count/mod.rs`, `src/count/group.rs` — `Counter::new`,
  `Counter::sampler`, `Counter::query_bpf`, `CounterGroup::add`;
* `src/config/attr.rs`, `src/config/mod.rs` — attribute assembly;
* `src/sample/record/*.rs` — the record parser.

Machine integers are modelled as `Nat` with explicit truncation where the
source truncates; fallible paths return `Except`/`Option`; the kernel UAPI
constants (which the build script materializes from `perf_event.h` and which
the library consumes as named integers) are given their Linux UAPI values.
-/

namespace PerfSpec

/-! ## Little-endian byte utilities -/

/-- `n`-byte little-endian encoding of `v` (low byte first). -/
def leBytes : Nat → Nat → List Nat
  | 0, _ => []
  | n + 1, v => v % 256 :: leBytes n (v / 256)

/-- Value of a little-endian byte list (low byte first). -/
def leVal : List Nat → Nat
  | [] => 0
  | b :: bs => b + 256 * leVal bs

/-! ## UAPI constants

Consumed by the library as named integers (spec §6: the build-time generator
materializes them from the kernel's `perf_event.h`). Values are the Linux
UAPI values. -/

def PERF_SAMPLE_IP : Nat := 2 ^ 0

def PERF_SAMPLE_TID : Nat := 2 ^ 1

def PERF_SAMPLE_TIME : Nat := 2 ^ 2

def PERF_SAMPLE_ADDR : Nat := 2 ^ 3

def PERF_SAMPLE_READ : Nat := 2 ^ 4

def PERF_SAMPLE_CALLCHAIN : Nat := 2 ^ 5

def PERF_SAMPLE_ID : Nat := 2 ^ 6

def PERF_SAMPLE_CPU : Nat := 2 ^ 7

def PERF_SAMPLE_PERIOD : Nat := 2 ^ 8

def PERF_SAMPLE_STREAM_ID : Nat := 2 ^ 9

def PERF_SAMPLE_RAW : Nat := 2 ^ 10

def PERF_SAMPLE_BRANCH_STACK : Nat := 2 ^ 11

def PERF_SAMPLE_REGS_USER : Nat := 2 ^ 12

def PERF_SAMPLE_STACK_USER : Nat := 2 ^ 13

def PERF_SAMPLE_WEIGHT : Nat := 2 ^ 14

def PERF_SAMPLE_DATA_SRC : Nat := 2 ^ 15

def PERF_SAMPLE_IDENTIFIER : Nat := 2 ^ 16

def PERF_SAMPLE_TRANSACTION : Nat := 2 ^ 17

def PERF_SAMPLE_REGS_INTR : Nat := 2 ^ 18

def PERF_SAMPLE_PHYS_ADDR : Nat := 2 ^ 19

def PERF_SAMPLE_AUX : Nat := 2 ^ 20

def PERF_SAMPLE_CGROUP : Nat := 2 ^ 21

def PERF_SAMPLE_DATA_PAGE_SIZE : Nat := 2 ^ 22

def PERF_SAMPLE_CODE_PAGE_SIZE : Nat := 2 ^ 23

def PERF_SAMPLE_WEIGHT_STRUCT : Nat := 2 ^ 24

def PERF_FORMAT_TOTAL_TIME_ENABLED : Nat := 2 ^ 0

def PERF_FORMAT_TOTAL_TIME_RUNNING : Nat := 2 ^ 1

def PERF_FORMAT_ID : Nat := 2 ^ 2

def PERF_FORMAT_GROUP : Nat := 2 ^ 3

def PERF_FORMAT_LOST : Nat := 2 ^ 4

/-! ## C1/C2 — the data ring buffer (`src/sample/rb/mod.rs`, `cow.rs`)

The ring state observed by one `Rb::lending_pop` call: the mmap'ed data
area (`alloc`, of `size` bytes, given as a byte function), the consumer's
tail cursor and the kernel's head cursor.  Stores to the shared tail cursor
are recorded as `(value, isReleaseOrdering)` events. -/

structure RbState where
  size : Nat
  ring : Nat → Nat
  tail : Nat
  head : Nat

/-- `len` ring bytes starting at `start` (no wrapping applied). -/
def ringSlice (st : RbState) (start len : Nat) : List Nat :=
  (List.range len).map fun i => st.ring (start + i)

/-- `CowChunk` (src/sample/rb/cow.rs): `owned = true` models `Cow::Owned`
(the wrap-straddling copy), `owned = false` models `Cow::Borrowed`. -/
structure CowChunk where
  owned : Bool
  bytes : List Nat
  newTail : Nat
  deriving Repr, DecidableEq

/-- The `chunk_len` computation of `Rb::lending_pop`: `d = size - tail` is
compared against 7; the u16 `size` field lives at header bytes 6..8 and may
straddle the ring end (the `d.cmp(&7)` match of src/sample/rb/mod.rs). -/
def rbChunkLen (st : RbState) : Nat :=
  let d := st.size - st.tail
  if 7 < d then
    st.ring (st.tail + 6) + 256 * st.ring (st.tail + 7)
  else if d < 7 then
    st.ring (6 - d) + 256 * st.ring (7 - d)
  else
    st.ring (st.tail + 6) + 256 * st.ring 0

/-- `Rb::lending_pop` (src/sample/rb/mod.rs lines 23-101).  Returns the
popped chunk (if any) together with the list of stores to the shared tail
cursor performed during the call itself. -/
def lendingPop (st : RbState) : Option CowChunk × List (Nat × Bool) :=
  if st.tail = st.head % st.size then
    (none, [])
  else
    let chunkLen := rbChunkLen st
    let newTail := (st.tail + chunkLen) % st.size
    if st.tail + chunkLen ≤ st.size then
      (some ⟨false, ringSlice st st.tail chunkLen, newTail⟩, [])
    else
      -- copy high part then low part, publish the new tail eagerly (Release)
      let hi := ringSlice st st.tail (st.size - st.tail)
      let lo := ringSlice st 0 (st.tail + chunkLen - st.size)
      (some ⟨true, hi ++ lo, newTail⟩, [(newTail, true)])

/-- `CowChunk::drop` (src/sample/rb/cow.rs lines 39-46): the list of stores
to the shared tail cursor performed by dropping the chunk. -/
def cowChunkDropStores (c : CowChunk) : List (Nat × Bool) :=
  if c.owned then [] else [(c.newTail, true)]

/-- The record length as the specification words it: the u16 at bytes 6..8
of the record header starting at the tail offset, each byte read modulo the
ring size. -/
def headerSizeAt (st : RbState) : Nat :=
  st.ring ((st.tail + 6) % st.size) + 256 * st.ring ((st.tail + 7) % st.size)

/-- Concrete ring state used by the C1/C2 witnesses: an 8-byte ring holding
zeroes, tail 0, head 4 (one zero-length header visible). -/
def rbW : RbState := ⟨8, fun _ => 0, 0, 4⟩

/-- The concrete chunk popped from `rbW` (borrowed, zero length). -/
def rbWChunk : CowChunk := ⟨false, [], 0⟩

/-! ## C5/C6 — statistics decoding and read-buffer sizing
(`src/count/stat.rs`, `src/count/group.rs`) -/

/-- `x & f > 0`, the flag test used throughout the sources. -/
def hasFlag (x f : Nat) : Bool := 0 < x &&& f

/-- `deref_offset::<u64>`: read a little-endian u64 and advance. -/
def rdU64 (bs : List Nat) : Nat × List Nat := (leVal (bs.take 8), bs.drop 8)

/-- `deref_offset::<u32>`: read a little-endian u32 and advance. -/
def rdU32 (bs : List Nat) : Nat × List Nat := (leVal (bs.take 4), bs.drop 4)

/-- `deref_offset::<u16>`: read a little-endian u16 and advance. -/
def rdU16 (bs : List Nat) : Nat × List Nat := (leVal (bs.take 2), bs.drop 2)

/-- `deref_offset::<u8>`. -/
def rdU8 (bs : List Nat) : Nat × List Nat := (leVal (bs.take 1), bs.drop 1)

/-- The `when!` macro of `Stat::from_ptr_offset`: conditionally read a u64. -/
def rdWhen (b : Bool) (bs : List Nat) : Option Nat × List Nat :=
  if b then
    let (v, r) := rdU64 bs
    (some v, r)
  else
    (none, bs)

/-- Sibling event statistics (src/count/stat.rs `SiblingStat`). -/
structure SiblingStat where
  count : Nat
  id : Option Nat
  lost_records : Option Nat
  deriving Repr, DecidableEq

/-- Event statistics (src/count/stat.rs `Stat`). -/
structure Stat where
  count : Nat
  id : Option Nat
  time_enabled : Option Nat
  time_running : Option Nat
  lost_records : Option Nat
  siblings : List SiblingStat
  deriving Repr, DecidableEq

/-- The `(1..nr).map(...)` sibling loop of `Stat::from_ptr_offset`,
reading `n` sibling entries. -/
def rdSiblings (rf : Nat) : Nat → List Nat → List SiblingStat × List Nat
  | 0, bs => ([], bs)
  | n + 1, bs =>
    let (count, bs) := rdU64 bs
    let (id, bs) := rdWhen (hasFlag rf PERF_FORMAT_ID) bs
    let (lost, bs) := rdWhen (hasFlag rf PERF_FORMAT_LOST) bs
    let (rest, bs) := rdSiblings rf n bs
    (⟨count, id, lost⟩ :: rest, bs)

/-- `Stat::from_ptr_offset` (src/count/stat.rs lines 60-123): decode a
`read()` buffer according to `read_format`, returning the decoded statistics
and the remaining bytes. -/
def statFromPtrOffset (bs : List Nat) (read_format : Nat) : Stat × List Nat :=
  if read_format &&& PERF_FORMAT_GROUP = 0 then
    let (count, bs) := rdU64 bs
    let (time_enabled, bs) := rdWhen (hasFlag read_format PERF_FORMAT_TOTAL_TIME_ENABLED) bs
    let (time_running, bs) := rdWhen (hasFlag read_format PERF_FORMAT_TOTAL_TIME_RUNNING) bs
    let (id, bs) := rdWhen (hasFlag read_format PERF_FORMAT_ID) bs
    let (lost_records, bs) := rdWhen (hasFlag read_format PERF_FORMAT_LOST) bs
    (⟨count, id, time_enabled, time_running, lost_records, []⟩, bs)
  else
    let (nr, bs) := rdU64 bs
    let (time_enabled, bs) := rdWhen (hasFlag read_format PERF_FORMAT_TOTAL_TIME_ENABLED) bs
    let (time_running, bs) := rdWhen (hasFlag read_format PERF_FORMAT_TOTAL_TIME_RUNNING) bs
    let (count, bs) := rdU64 bs
    let (id, bs) := rdWhen (hasFlag read_format PERF_FORMAT_ID) bs
    let (lost_records, bs) := rdWhen (hasFlag read_format PERF_FORMAT_LOST) bs
    let (siblings, bs) := rdSiblings read_format (nr - 1) bs
    (⟨count, id, time_enabled, time_running, lost_records, siblings⟩, bs)

/-- Conditional u64 encoding used to build `read()` buffers for the layout
theorems. -/
def encOpt (b : Bool) (v : Nat) : List Nat := if b then leBytes 8 v else []

/-- Encoding of group entries `{ value, [id], [lost] }[n]`. -/
def encGroupEntries (hid hlost : Bool) : List (Nat × Nat × Nat) → List Nat
  | [] => []
  | (v, i, l) :: es =>
    leBytes 8 v ++ encOpt hid i ++ encOpt hlost l ++ encGroupEntries hid hlost es

/-- `if b then some v else none`. -/
def optOf (b : Bool) (v : Nat) : Option Nat := if b then some v else none

/-- Read-buffer size for `group_size` members, from `Stat::alloc_read_buf`
(src/count/stat.rs lines 129-152): start from one u64 and add one u64 for
each of `time_enabled`/`time_running`, plus `group_size` u64s for each of
the `group`, `id` and `lost` flags. -/
def readBufSize (groupSize : Nat) (rf : Nat) : Nat :=
  8 + (if hasFlag rf PERF_FORMAT_TOTAL_TIME_ENABLED then 8 else 0)
    + (if hasFlag rf PERF_FORMAT_TOTAL_TIME_RUNNING then 8 else 0)
    + (if hasFlag rf PERF_FORMAT_GROUP then groupSize * 8 else 0)
    + (if hasFlag rf PERF_FORMAT_ID then groupSize * 8 else 0)
    + (if hasFlag rf PERF_FORMAT_LOST then groupSize * 8 else 0)

/-- Length of the leader's read buffer after `k` calls to
`CounterGroup::add` (src/count/group.rs lines 100-152): `Counter::new`
allocates for a single member; each add, after pushing the new sibling,
computes the size for `siblings.len() + 1` members and replaces the buffer
only when strictly larger. -/
def leaderBufLen (rf : Nat) : Nat → Nat
  | 0 => readBufSize 1 rf
  | k + 1 =>
    let old := leaderBufLen rf k
    let newLen := readBufSize (k + 2) rf
    if old < newLen then newLen else old

/-- Modelled from the spec (claim C6's formula, for comparison with
`readBufSize`): `8 + [time_enabled]·8 + [time_running]·8 + ([group] ?
nr_members·(8 + [id]·8 + [lost]·8) : 8·(1 + [id] + [lost]))`. -/
def readBufSizeClaim (nrMembers : Nat) (rf : Nat) : Nat :=
  8 + (if hasFlag rf PERF_FORMAT_TOTAL_TIME_ENABLED then 8 else 0)
    + (if hasFlag rf PERF_FORMAT_TOTAL_TIME_RUNNING then 8 else 0)
    + (if hasFlag rf PERF_FORMAT_GROUP then
        nrMembers * (8 + (if hasFlag rf PERF_FORMAT_ID then 8 else 0)
          + (if hasFlag rf PERF_FORMAT_LOST then 8 else 0))
      else
        8 * (1 + (if hasFlag rf PERF_FORMAT_ID then 1 else 0)
          + (if hasFlag rf PERF_FORMAT_LOST then 1 else 0)))

/-- `PERF_FORMAT_GROUP | PERF_FORMAT_ID | PERF_FORMAT_TOTAL_TIME_ENABLED |
PERF_FORMAT_TOTAL_TIME_RUNNING`, the read format of the C6 scenario. -/
def rfScenario : Nat :=
  PERF_FORMAT_GROUP ||| PERF_FORMAT_ID |||
    PERF_FORMAT_TOTAL_TIME_ENABLED ||| PERF_FORMAT_TOTAL_TIME_RUNNING

/-! ## C7 — `Counter::sampler` (src/count/mod.rs lines 117-138,
src/sample/mod.rs lines 67-82) -/

/-- `usize` overflow bound (64-bit target). -/
def USIZE : Nat := 2 ^ 64

/-- Outcome of `Counter::sampler`: the `AlreadyExists` error, the
"allocation size overflow" error, or an `mmap` request of `len` bytes at
byte offset `offset`. -/
inductive SamplerResult where
  | alreadyExists
  | overflow
  | mapped (len offset : Nat)
  deriving Repr, DecidableEq

/-- `Sampler::new` (src/sample/mod.rs lines 67-82): compute
`2^exp` (checked), `+ 1` (checked), `× page_size` (checked); on any
overflow return the error before calling `mmap`, otherwise map `len` bytes
at offset 0. -/
def samplerNew (pageSize exp : Nat) : SamplerResult :=
  if USIZE ≤ 2 ^ exp then .overflow
  else if USIZE ≤ 2 ^ exp + 1 then .overflow
  else if USIZE ≤ (2 ^ exp + 1) * pageSize then .overflow
  else .mapped ((2 ^ exp + 1) * pageSize) 0

/-- `Counter::sampler` (src/count/mod.rs lines 117-138): `Sampler::new` when
the shared perf fd has exactly one owner, `AlreadyExists` otherwise. -/
def counterSampler (strongCount pageSize exp : Nat) : SamplerResult :=
  if strongCount = 1 then samplerNew pageSize exp else .alreadyExists

/-! ## C8 — `Counter::query_bpf` (src/count/mod.rs lines 226-270) -/

/-- `libc::ENOSPC`. -/
def ENOSPC : Nat := 28

/-- `Counter::query_bpf(cap)`, parametrized by the kernel side of the
`PERF_IOC_OP_QUERY_BPF` ioctl: `kernel` receives the prepared buffer
`[ids_len = cap, prog_cnt?, ids[cap]?]` (index 0 initialized to `cap`, the
rest uninitialized, modelled by `uninit`) and returns either success or an
errno, together with the buffer as written by the kernel. -/
def queryBpf (kernel : List Nat → Except (Nat × List Nat) (List Nat))
    (cap : Nat) (uninit : List Nat) : Except Nat (List Nat × Option Nat) :=
  match kernel (cap :: uninit) with
  | .ok buf =>
    let progCnt := buf.getD 1 0
    .ok ((buf.drop 2).take progCnt, none)
  | .error (errno, buf) =>
    if errno = ENOSPC then
      let progCnt := buf.getD 1 0
      .ok (buf.drop 2, some (progCnt - cap))
    else
      .error errno

/-- A concrete kernel behavior for the C8 witness: reports 5 programs via
`ENOSPC` after filling the 3 slots that fit. -/
def qbKernel : List Nat → Except (Nat × List Nat) (List Nat) :=
  fun buf => .error (ENOSPC, [buf.headD 0, 5, 11, 12, 13])

/-! ## C4/C9 — attribute assembly (`src/config/attr.rs`, `src/config/mod.rs`)

The user-facing configuration surface (`Opts` and its component types) and
the assembler `from`, embedded over `Nat` fields.  The compile-time
`#[cfg(feature = "linux-X.Y")]` gates become a `Features` record. -/

def PERF_SAMPLE_BRANCH_USER : Nat := 2 ^ 0

def PERF_SAMPLE_BRANCH_KERNEL : Nat := 2 ^ 1

def PERF_SAMPLE_BRANCH_HV : Nat := 2 ^ 2

def PERF_SAMPLE_BRANCH_ANY : Nat := 2 ^ 3

def PERF_SAMPLE_BRANCH_ANY_CALL : Nat := 2 ^ 4

def PERF_SAMPLE_BRANCH_ANY_RETURN : Nat := 2 ^ 5

def PERF_SAMPLE_BRANCH_IND_CALL : Nat := 2 ^ 6

def PERF_SAMPLE_BRANCH_ABORT_TX : Nat := 2 ^ 7

def PERF_SAMPLE_BRANCH_IN_TX : Nat := 2 ^ 8

def PERF_SAMPLE_BRANCH_NO_TX : Nat := 2 ^ 9

def PERF_SAMPLE_BRANCH_COND : Nat := 2 ^ 10

def PERF_SAMPLE_BRANCH_CALL_STACK : Nat := 2 ^ 11

def PERF_SAMPLE_BRANCH_IND_JUMP : Nat := 2 ^ 12

def PERF_SAMPLE_BRANCH_CALL : Nat := 2 ^ 13

def PERF_SAMPLE_BRANCH_NO_FLAGS : Nat := 2 ^ 14

def PERF_SAMPLE_BRANCH_NO_CYCLES : Nat := 2 ^ 15

def PERF_SAMPLE_BRANCH_TYPE_SAVE : Nat := 2 ^ 16

def PERF_SAMPLE_BRANCH_HW_INDEX : Nat := 2 ^ 17

def PERF_SAMPLE_BRANCH_PRIV_SAVE : Nat := 2 ^ 18

def PERF_SAMPLE_BRANCH_COUNTERS : Nat := 2 ^ 19

def CLOCK_REALTIME : Nat := 0

def CLOCK_MONOTONIC : Nat := 1

def CLOCK_MONOTONIC_RAW : Nat := 4

def CLOCK_BOOTTIME : Nat := 7

def CLOCK_TAI : Nat := 11

/-- The compile-time minimum-kernel-version gates referenced by the
assembler (`#[cfg(feature = "linux-X.Y")]`). -/
structure Features where
  l5_9 : Bool
  l5_11 : Bool
  l5_12 : Bool
  l5_13 : Bool
  l6_0 : Bool
  l6_1 : Bool
  l6_3 : Bool
  l6_8 : Bool
  l6_13 : Bool
  deriving Repr, DecidableEq

/-- All gates enabled (a `linux-6.13` compile target). -/
def allFeatures : Features := ⟨true, true, true, true, true, true, true, true, true⟩

/-- `EventConfig` (src/event/mod.rs): the six-integer event tuple. -/
structure EventConfig where
  ty : Nat
  config : Nat
  config1 : Nat
  config2 : Nat
  config3 : Nat
  bp_type : Nat
  deriving Repr, DecidableEq

/-- `config::Priv` (src/config/mod.rs): privilege exclusion set. -/
structure ExcludePriv where
  user : Bool
  kernel : Bool
  hv : Bool
  host : Bool
  guest : Bool
  idle : Bool
  deriving Repr, DecidableEq

/-- `config::Inherit`. -/
inductive Inherit where
  | NewChild
  | NewThread
  deriving Repr, DecidableEq

/-- `config::OnExecve`. -/
inductive OnExecve where
  | Enable
  | Remove
  deriving Repr, DecidableEq

/-- `config::StatFormat` (the leader variant, src/config/mod.rs). -/
structure StatFormat where
  id : Bool
  time_enabled : Bool
  time_running : Bool
  lost_records : Bool
  siblings : Bool
  deriving Repr, DecidableEq

/-- `config::SampleOn`. -/
inductive SampleOn where
  | Freq (val : Nat)
  | Count (val : Nat)
  deriving Repr, DecidableEq

/-- `config::SampleSkid`. -/
inductive SampleSkid where
  | Arbitrary
  | Const
  | ReqZero
  | Zero
  deriving Repr, DecidableEq

/-- `SampleSkid::as_precise_ip`. -/
def SampleSkid.asPreciseIp : SampleSkid → Nat
  | .Arbitrary => 0
  | .Const => 1
  | .ReqZero => 2
  | .Zero => 3

/-- `config::CallChain`. -/
structure CallChain where
  exclude_user : Bool
  exclude_kernel : Bool
  max_stack_frames : Nat
  deriving Repr, DecidableEq

/-- `config::TargetPriv` (LBR target privilege). -/
structure TargetPriv where
  user : Bool
  kernel : Bool
  hv : Bool
  deriving Repr, DecidableEq

/-- `TargetPriv::as_branch_sample_type`. -/
def TargetPriv.asBranchSampleType (t : TargetPriv) : Nat :=
  (if t.user then PERF_SAMPLE_BRANCH_USER else 0) |||
    (if t.kernel then PERF_SAMPLE_BRANCH_KERNEL else 0) |||
    (if t.hv then PERF_SAMPLE_BRANCH_HV else 0)

/-- `config::BranchType` (LBR branch categories to capture). -/
structure BranchTypeCfg where
  any : Bool
  any_return : Bool
  cond : Bool
  ind_jump : Bool
  call_stack : Bool
  call : Bool
  ind_call : Bool
  any_call : Bool
  in_tx : Bool
  no_tx : Bool
  abort_tx : Bool
  deriving Repr, DecidableEq

/-- `config::EntryFormat` (LBR entry format). -/
structure EntryFormat where
  flags : Bool
  cycles : Bool
  counter : Bool
  branch_type : Bool
  branch_priv : Bool
  deriving Repr, DecidableEq

/-- `config::Lbr`. -/
structure LbrCfg where
  target_priv : Option TargetPriv
  branch_type : BranchTypeCfg
  hw_index : Bool
  entry_format : EntryFormat
  deriving Repr, DecidableEq

/-- `config::Repr` (weight representation). -/
inductive WeightRepr where
  | Full
  | Vars
  deriving Repr, DecidableEq

/-- `config::SampleFormat`; `Size`/`RegsMask` wrappers become `Nat`. -/
structure SampleFormat where
  stat : Bool
  period : Bool
  cgroup : Bool
  call_chain : Option CallChain
  user_stack : Option Nat
  data_addr : Bool
  data_phys_addr : Bool
  data_page_size : Bool
  data_source : Bool
  code_addr : Bool
  code_page_size : Bool
  user_regs : Option Nat
  intr_regs : Option Nat
  raw : Bool
  lbr : Option LbrCfg
  aux : Option Nat
  txn : Bool
  weight : Option WeightRepr
  deriving Repr, DecidableEq

/-- `config::Mmap` (mmap record options); `ext : Option UseBuildId`. -/
structure MmapCfg where
  code : Bool
  data : Bool
  ext : Option Bool
  deriving Repr, DecidableEq

/-- `config::ExtraRecord`. -/
structure ExtraRecord where
  task : Bool
  read : Bool
  comm : Bool
  mmap : MmapCfg
  cgroup : Bool
  ksymbol : Bool
  bpf_event : Bool
  text_poke : Bool
  ctx_switch : Bool
  namespaces : Bool
  deriving Repr, DecidableEq

/-- `config::RecordIdFormat`. -/
structure RecordIdFormat where
  id : Bool
  stream_id : Bool
  cpu : Bool
  task : Bool
  time : Bool
  deriving Repr, DecidableEq

/-- `config::WakeUpOn`. -/
inductive WakeUpOn where
  | Bytes (n : Nat)
  | Samples (n : Nat)
  deriving Repr, DecidableEq

/-- `config::WakeUp`. -/
structure WakeUp where
  on_ : WakeUpOn
  on_aux_bytes : Nat
  deriving Repr, DecidableEq

/-- `config::Clock`. -/
inductive Clock where
  | Tai
  | RealTime
  | BootTime
  | Monotonic
  | MonotonicRaw
  deriving Repr, DecidableEq

/-- The clockid written for each `Clock` (src/config/attr.rs lines 295-305). -/
def Clock.asClockid : Clock → Nat
  | .Tai => CLOCK_TAI
  | .RealTime => CLOCK_REALTIME
  | .BootTime => CLOCK_BOOTTIME
  | .Monotonic => CLOCK_MONOTONIC
  | .MonotonicRaw => CLOCK_MONOTONIC_RAW

/-- `config::Opts`; `SigData` becomes `Option Nat`. -/
structure Opts where
  exclude : ExcludePriv
  only_group : Bool
  pin_on_pmu : Bool
  inherit : Option Inherit
  on_execve : Option OnExecve
  stat_format : StatFormat
  enable : Bool
  sample_on : SampleOn
  sample_skid : SampleSkid
  sample_format : SampleFormat
  extra_record : ExtraRecord
  record_id_all : Bool
  record_id_format : RecordIdFormat
  wake_up : WakeUp
  sigtrap_on_sample : Option Nat
  timer : Option Clock
  pause_aux : Bool
  deriving Repr, DecidableEq

/-- `perf_event_attr` as populated by the assembler: numeric fields as
`Nat`, the packed option bits as `Bool` fields, the two unions
(`sample_period`/`sample_freq` and `wakeup_events`/`wakeup_watermark`)
as one value each with the selecting bit (`freq`, `watermark`) alongside. -/
structure Attr where
  type_ : Nat
  config : Nat
  config1 : Nat
  config2 : Nat
  config3 : Nat
  bp_type : Nat
  read_format : Nat
  sample_type : Nat
  branch_sample_type : Nat
  sample_regs_user : Nat
  sample_regs_intr : Nat
  sample_stack_user : Nat
  sample_max_stack : Nat
  aux_sample_size : Nat
  clockid : Nat
  sig_data : Nat
  aux_watermark : Nat
  sample_period_or_freq : Nat
  wakeup_events_or_watermark : Nat
  precise_ip : Nat
  exclude_user : Bool
  exclude_kernel : Bool
  exclude_hv : Bool
  exclude_host : Bool
  exclude_guest : Bool
  exclude_idle : Bool
  exclusive : Bool
  pinned : Bool
  inherit : Bool
  inherit_thread : Bool
  enable_on_exec : Bool
  remove_on_exec : Bool
  disabled : Bool
  freq : Bool
  watermark : Bool
  sample_id_all : Bool
  comm : Bool
  task : Bool
  mmap : Bool
  mmap2 : Bool
  mmap_data : Bool
  build_id : Bool
  inherit_stat : Bool
  cgroup : Bool
  ksymbol : Bool
  bpf_event : Bool
  text_poke : Bool
  context_switch : Bool
  namespaces : Bool
  sigtrap : Bool
  use_clockid : Bool
  exclude_callchain_user : Bool
  exclude_callchain_kernel : Bool
  aux_start_paused : Bool
  deriving Repr, DecidableEq

/-- `StatFormat::as_read_format` (src/config/mod.rs lines 129-147), the OR
of one `PERF_FORMAT_*` flag per enabled field (`lost_records` is gated by
`linux-6.0`; the gate check itself is collected in `gateChecks`). -/
def StatFormat.asReadFormat (sf : StatFormat) : Nat :=
  (if sf.id then PERF_FORMAT_ID else 0) |||
    (if sf.time_enabled then PERF_FORMAT_TOTAL_TIME_ENABLED else 0) |||
    (if sf.time_running then PERF_FORMAT_TOTAL_TIME_RUNNING else 0) |||
    (if sf.lost_records then PERF_FORMAT_LOST else 0) |||
    (if sf.siblings then PERF_FORMAT_GROUP else 0)

/-- The `branch_sample_type` built by the `lbr` block of the assembler
(src/config/attr.rs lines 149-207). -/
def lbrBranchSampleType (l : LbrCfg) : Nat :=
  (l.target_priv.map TargetPriv.asBranchSampleType).getD 0 |||
    (if l.branch_type.any then PERF_SAMPLE_BRANCH_ANY else 0) |||
    (if l.branch_type.any_return then PERF_SAMPLE_BRANCH_ANY_RETURN else 0) |||
    (if l.branch_type.cond then PERF_SAMPLE_BRANCH_COND else 0) |||
    (if l.branch_type.ind_jump then PERF_SAMPLE_BRANCH_IND_JUMP else 0) |||
    (if l.branch_type.call_stack then PERF_SAMPLE_BRANCH_CALL_STACK else 0) |||
    (if l.branch_type.call then PERF_SAMPLE_BRANCH_CALL else 0) |||
    (if l.branch_type.any_call then PERF_SAMPLE_BRANCH_ANY_CALL else 0) |||
    (if l.branch_type.ind_call then PERF_SAMPLE_BRANCH_IND_CALL else 0) |||
    (if l.branch_type.in_tx then PERF_SAMPLE_BRANCH_IN_TX else 0) |||
    (if l.branch_type.no_tx then PERF_SAMPLE_BRANCH_NO_TX else 0) |||
    (if l.branch_type.abort_tx then PERF_SAMPLE_BRANCH_ABORT_TX else 0) |||
    (if l.hw_index then PERF_SAMPLE_BRANCH_HW_INDEX else 0) |||
    (if !l.entry_format.flags then PERF_SAMPLE_BRANCH_NO_FLAGS else 0) |||
    (if !l.entry_format.cycles then PERF_SAMPLE_BRANCH_NO_CYCLES else 0) |||
    (if l.entry_format.counter then PERF_SAMPLE_BRANCH_COUNTERS else 0) |||
    (if l.entry_format.branch_type then PERF_SAMPLE_BRANCH_TYPE_SAVE else 0) |||
    (if l.entry_format.branch_priv then PERF_SAMPLE_BRANCH_PRIV_SAVE else 0)

/-- The `sample_type` mask built by the assembler (src/config/attr.rs lines
98-234): one `PERF_SAMPLE_*` flag per enabled sample-format field, in
source order, followed by the record-id-format flags. -/
def sampleTypeOf (o : Opts) : Nat :=
  (if o.sample_format.stat then PERF_SAMPLE_READ else 0) |||
    (if o.sample_format.period then PERF_SAMPLE_PERIOD else 0) |||
    (if o.sample_format.cgroup then PERF_SAMPLE_CGROUP else 0) |||
    (if o.sample_format.user_stack.isSome then PERF_SAMPLE_STACK_USER else 0) |||
    (if o.sample_format.call_chain.isSome then PERF_SAMPLE_CALLCHAIN else 0) |||
    (if o.sample_format.data_addr then PERF_SAMPLE_ADDR else 0) |||
    (if o.sample_format.data_phys_addr then PERF_SAMPLE_PHYS_ADDR else 0) |||
    (if o.sample_format.data_page_size then PERF_SAMPLE_DATA_PAGE_SIZE else 0) |||
    (if o.sample_format.data_source then PERF_SAMPLE_DATA_SRC else 0) |||
    (if o.sample_format.code_addr then PERF_SAMPLE_IP else 0) |||
    (if o.sample_format.code_page_size then PERF_SAMPLE_CODE_PAGE_SIZE else 0) |||
    (if o.sample_format.user_regs.isSome then PERF_SAMPLE_REGS_USER else 0) |||
    (if o.sample_format.intr_regs.isSome then PERF_SAMPLE_REGS_INTR else 0) |||
    (if o.sample_format.raw then PERF_SAMPLE_RAW else 0) |||
    (if o.sample_format.lbr.isSome then PERF_SAMPLE_BRANCH_STACK else 0) |||
    (if o.sample_format.aux.isSome then PERF_SAMPLE_AUX else 0) |||
    (if o.sample_format.txn then PERF_SAMPLE_TRANSACTION else 0) |||
    (match o.sample_format.weight with
      | some .Full => PERF_SAMPLE_WEIGHT
      | some .Vars => PERF_SAMPLE_WEIGHT_STRUCT
      | none => 0) |||
    (if o.record_id_format.id then PERF_SAMPLE_ID else 0) |||
    (if o.record_id_format.stream_id then PERF_SAMPLE_STREAM_ID else 0) |||
    (if o.record_id_format.cpu then PERF_SAMPLE_CPU else 0) |||
    (if o.record_id_format.task then PERF_SAMPLE_TID else 0) |||
    (if o.record_id_format.time then PERF_SAMPLE_TIME else 0)

/-- The compile-time gate checks of the assembler, in source order: each
entry is true exactly when that `unsupported!` fires (an option is enabled
whose `#[cfg(feature = ...)]` gate is off).  `from` in src/config/attr.rs
interleaves these checks with pure field writes; since a failing check
discards the attribute, collecting them before building the record is
observably identical. -/
def gateChecks (f : Features) (e : EventConfig) (o : Opts) : List Bool :=
  [!f.l6_3 && decide (0 < e.config3),
    !f.l5_13 && decide (o.inherit = some .NewThread),
    !f.l5_13 && decide (o.on_execve = some .Remove),
    !f.l6_0 && o.stat_format.lost_records,
    !f.l5_11 && o.sample_format.data_page_size,
    !f.l5_11 && o.sample_format.code_page_size,
    !f.l6_8 && (o.sample_format.lbr.map (·.entry_format.counter)).getD false,
    !f.l6_1 && (o.sample_format.lbr.map (·.entry_format.branch_priv)).getD false,
    !f.l5_12 && decide (o.sample_format.weight = some .Vars),
    !f.l5_12 && (o.extra_record.mmap.ext.map id).getD false,
    !f.l5_9 && o.extra_record.text_poke,
    !f.l5_13 && o.sigtrap_on_sample.isSome,
    !f.l6_13 && o.pause_aux]

/-- `if b then .error () else check the rest` over the gate-check list. -/
def chkAll : List Bool → Except Unit Unit
  | [] => .ok ()
  | b :: bs => if b then .error () else chkAll bs

/-- The attribute record produced by the assembler when every gate check
passes (all field writes of `from`, src/config/attr.rs lines 8-316, in
functional form).  Field writes that the source performs only under an
enabled gate (`config3`, `build_id`, `PERF_FORMAT_LOST`, ...) are written
unconditionally here: when the gate is off the corresponding option is
forced off by `gateChecks`, making the written value coincide with the
source's untouched default. -/
def attrRecord (e : EventConfig) (o : Opts) : Attr where
  type_ := e.ty
  config := e.config
  config1 := e.config1
  config2 := e.config2
  config3 := e.config3
  bp_type := e.bp_type
  read_format := o.stat_format.asReadFormat
  sample_type := sampleTypeOf o
  branch_sample_type := (o.sample_format.lbr.map lbrBranchSampleType).getD 0
  sample_regs_user := (o.sample_format.user_regs.getD 0)
  sample_regs_intr := (o.sample_format.intr_regs.getD 0)
  sample_stack_user := (o.sample_format.user_stack.getD 0)
  sample_max_stack := (o.sample_format.call_chain.map (·.max_stack_frames)).getD 0
  aux_sample_size := (o.sample_format.aux.getD 0)
  clockid := (o.timer.map Clock.asClockid).getD 0
  sig_data := o.sigtrap_on_sample.getD 0
  aux_watermark := o.wake_up.on_aux_bytes
  sample_period_or_freq :=
    match o.sample_on with
    | .Freq v => v
    | .Count v => v
  wakeup_events_or_watermark :=
    match o.wake_up.on_ with
    | .Bytes n => n % 2 ^ 32
    | .Samples n => n % 2 ^ 32
  precise_ip := o.sample_skid.asPreciseIp
  exclude_user := o.exclude.user
  exclude_kernel := o.exclude.kernel
  exclude_hv := o.exclude.hv
  exclude_host := o.exclude.host
  exclude_guest := o.exclude.guest
  exclude_idle := o.exclude.idle
  exclusive := o.only_group
  pinned := o.pin_on_pmu
  inherit := o.inherit.isSome
  inherit_thread := decide (o.inherit = some .NewThread)
  enable_on_exec := decide (o.on_execve = some .Enable)
  remove_on_exec := decide (o.on_execve = some .Remove)
  disabled := !o.enable
  freq :=
    match o.sample_on with
    | .Freq _ => true
    | .Count _ => false
  watermark :=
    match o.wake_up.on_ with
    | .Bytes _ => true
    | .Samples _ => false
  sample_id_all := o.record_id_all
  comm := o.extra_record.comm
  task := o.extra_record.task
  mmap := o.extra_record.mmap.code || o.extra_record.mmap.ext.isSome
  mmap2 := o.extra_record.mmap.ext.isSome
  mmap_data := o.extra_record.mmap.data
  build_id := (o.extra_record.mmap.ext.map id).getD false
  inherit_stat := o.extra_record.read
  cgroup := o.extra_record.cgroup
  ksymbol := o.extra_record.ksymbol
  bpf_event := o.extra_record.bpf_event
  text_poke := o.extra_record.text_poke
  context_switch := o.extra_record.ctx_switch
  namespaces := o.extra_record.namespaces
  sigtrap := o.sigtrap_on_sample.isSome
  use_clockid := o.timer.isSome
  exclude_callchain_user := (o.sample_format.call_chain.map (·.exclude_user)).getD false
  exclude_callchain_kernel := (o.sample_format.call_chain.map (·.exclude_kernel)).getD false
  aux_start_paused := o.pause_aux

/-- `config::attr::from` (src/config/attr.rs lines 8-316): run the gate
checks in source order, then produce the populated attribute.  The only
error is the typed `Unsupported`. -/
def attrFrom (f : Features) (e : EventConfig) (o : Opts) : Except Unit Attr := do
  chkAll (gateChecks f e o)
  pure (attrRecord e o)

/-- Error surface of `Counter::new`. -/
inductive CtrErr where
  | unsupported
  | os (errno : Nat)
  deriving Repr, DecidableEq

/-- `Counter::new` (src/count/mod.rs lines 87-107), parametrized by the
`perf_event_open` syscall (`openF`, returning a file descriptor or an
errno): attribute assembly runs first and its error is surfaced before the
syscall. -/
def counterNew (openF : Attr → Except Nat Nat) (f : Features)
    (e : EventConfig) (o : Opts) : Except CtrErr (Nat × Attr) :=
  match attrFrom f e o with
  | .error _ => .error .unsupported
  | .ok attr =>
    match openF attr with
    | .error errno => .error (.os errno)
    | .ok fd => .ok (fd, attr)

/-- Whether `Counter::new` reaches the `perf_event_open` syscall. -/
def counterNewIssuesOpen (f : Features) (e : EventConfig) (o : Opts) : Bool :=
  match attrFrom f e o with
  | .error _ => false
  | .ok _ => true

/-- `Task` (src/sample/record/mod.rs). -/
structure RTask where
  pid : Nat
  tid : Nat
  deriving Repr, DecidableEq

/-- `RecordId` (src/sample/record/mod.rs). -/
structure RecordId where
  id : Option Nat
  stream_id : Option Nat
  cpu : Option Nat
  task : Option RTask
  time : Option Nat
  deriving Repr, DecidableEq

/-- `RecordId::from_ptr` (src/sample/record/mod.rs lines 204-252): decode
the `sample_id` trailer driven by `sample_type`. -/
def recordIdFromPtr (bs : List Nat) (sampleTy : Nat) : RecordId :=
  let (task, bs) :=
    if hasFlag sampleTy PERF_SAMPLE_TID then
      let (pid, bs) := rdU32 bs
      let (tid, bs) := rdU32 bs
      (some (⟨pid, tid⟩ : RTask), bs)
    else (none, bs)
  let (time, bs) := rdWhen (hasFlag sampleTy PERF_SAMPLE_TIME) bs
  let (id, bs) := rdWhen (hasFlag sampleTy PERF_SAMPLE_ID) bs
  let (stream_id, bs) := rdWhen (hasFlag sampleTy PERF_SAMPLE_STREAM_ID) bs
  let (cpu, _) :=
    if hasFlag sampleTy PERF_SAMPLE_CPU then
      let (v, bs) := rdU32 bs
      (some v, bs)
    else (none, bs)
  ⟨id, stream_id, cpu, task, time⟩

/-- The default `Opts` (the `Default` derive of src/config/mod.rs:
everything off, `SampleOn::Freq(0)`, `SampleSkid::Arbitrary`,
`WakeUpOn::Samples(0)`). -/
def defaultOpts : Opts where
  exclude := ⟨false, false, false, false, false, false⟩
  only_group := false
  pin_on_pmu := false
  inherit := none
  on_execve := none
  stat_format := ⟨false, false, false, false, false⟩
  enable := false
  sample_on := .Freq 0
  sample_skid := .Arbitrary
  sample_format :=
    ⟨false, false, false, none, none, false, false, false, false, false,
      false, none, none, false, none, none, false, none⟩
  extra_record := ⟨false, false, false, ⟨false, false, none⟩, false, false,
    false, false, false, false⟩
  record_id_all := false
  record_id_format := ⟨false, false, false, false, false⟩
  wake_up := ⟨.Samples 0, 0⟩
  sigtrap_on_sample := none
  timer := none
  pause_aux := false

/-- A `linux-6.11`-style compile target: every gate on except `linux-6.13`. -/
def featuresNo613 : Features :=
  { allFeatures with l6_13 := false }

/-- Options requesting `aux_start_paused`, which needs `linux-6.13`. -/
def optsPauseAux : Opts := { defaultOpts with pause_aux := true }

/-- The zero event tuple. -/
def evZero : EventConfig := ⟨0, 0, 0, 0, 0, 0⟩

/-! ## C3/C10 — the record parser (`src/sample/record/*.rs`)

Embedded with every kernel-version gate enabled (the `linux-6.13` compile
target, matching `allFeatures`).  The single fallible point of the whole
parser is the register-ABI match of `parse_regs` (its `unimplemented!()`
panic becomes `Except.error ()`); everything else is total. -/

def PERF_RECORD_MMAP : Nat := 1

def PERF_RECORD_LOST : Nat := 2

def PERF_RECORD_COMM : Nat := 3

def PERF_RECORD_EXIT : Nat := 4

def PERF_RECORD_THROTTLE : Nat := 5

def PERF_RECORD_UNTHROTTLE : Nat := 6

def PERF_RECORD_FORK : Nat := 7

def PERF_RECORD_READ : Nat := 8

def PERF_RECORD_SAMPLE : Nat := 9

def PERF_RECORD_MMAP2 : Nat := 10

def PERF_RECORD_AUX : Nat := 11

def PERF_RECORD_ITRACE_START : Nat := 12

def PERF_RECORD_LOST_SAMPLES : Nat := 13

def PERF_RECORD_SWITCH : Nat := 14

def PERF_RECORD_SWITCH_CPU_WIDE : Nat := 15

def PERF_RECORD_NAMESPACES : Nat := 16

def PERF_RECORD_KSYMBOL : Nat := 17

def PERF_RECORD_BPF_EVENT : Nat := 18

def PERF_RECORD_CGROUP : Nat := 19

def PERF_RECORD_TEXT_POKE : Nat := 20

def PERF_RECORD_AUX_OUTPUT_HW_ID : Nat := 21

def PERF_RECORD_MISC_CPUMODE_MASK : Nat := 7

def PERF_RECORD_MISC_CPUMODE_UNKNOWN : Nat := 0

def PERF_RECORD_MISC_KERNEL : Nat := 1

def PERF_RECORD_MISC_USER : Nat := 2

def PERF_RECORD_MISC_HYPERVISOR : Nat := 3

def PERF_RECORD_MISC_GUEST_KERNEL : Nat := 4

def PERF_RECORD_MISC_GUEST_USER : Nat := 5

def PERF_RECORD_MISC_MMAP_DATA : Nat := 2 ^ 13

def PERF_RECORD_MISC_COMM_EXEC : Nat := 2 ^ 13

def PERF_RECORD_MISC_SWITCH_OUT : Nat := 2 ^ 13

def PERF_RECORD_MISC_EXACT_IP : Nat := 2 ^ 14

def PERF_RECORD_MISC_SWITCH_OUT_PREEMPT : Nat := 2 ^ 14

def PERF_RECORD_MISC_MMAP_BUILD_ID : Nat := 2 ^ 14

def PERF_SAMPLE_REGS_ABI_NONE : Nat := 0

def PERF_SAMPLE_REGS_ABI_32 : Nat := 1

def PERF_SAMPLE_REGS_ABI_64 : Nat := 2

def PERF_BR_UNKNOWN : Nat := 0

def PERF_BR_COND : Nat := 1

def PERF_BR_UNCOND : Nat := 2

def PERF_BR_IND : Nat := 3

def PERF_BR_CALL : Nat := 4

def PERF_BR_IND_CALL : Nat := 5

def PERF_BR_RET : Nat := 6

def PERF_BR_SYSCALL : Nat := 7

def PERF_BR_SYSRET : Nat := 8

def PERF_BR_COND_CALL : Nat := 9

def PERF_BR_COND_RET : Nat := 10

def PERF_BR_ERET : Nat := 11

def PERF_BR_IRQ : Nat := 12

def PERF_BR_SERROR : Nat := 13

def PERF_BR_NO_TX : Nat := 14

def PERF_BR_EXTEND_ABI : Nat := 15

def PERF_BR_NEW_FAULT_ALGN : Nat := 0

def PERF_BR_NEW_FAULT_DATA : Nat := 1

def PERF_BR_NEW_FAULT_INST : Nat := 2

def PERF_BR_NEW_ARCH_1 : Nat := 3

def PERF_BR_NEW_ARCH_2 : Nat := 4

def PERF_BR_NEW_ARCH_3 : Nat := 5

def PERF_BR_NEW_ARCH_4 : Nat := 6

def PERF_BR_NEW_ARCH_5 : Nat := 7

def PERF_BR_SPEC_NA : Nat := 0

def PERF_BR_SPEC_WRONG_PATH : Nat := 1

def PERF_BR_NON_SPEC_CORRECT_PATH : Nat := 2

def PERF_BR_SPEC_CORRECT_PATH : Nat := 3

def PERF_BR_PRIV_UNKNOWN : Nat := 0

def PERF_BR_PRIV_USER : Nat := 1

def PERF_BR_PRIV_KERNEL : Nat := 2

def PERF_BR_PRIV_HV : Nat := 3

def PERF_TXN_ELISION : Nat := 1

def PERF_TXN_TRANSACTION : Nat := 2

def PERF_TXN_SYNC : Nat := 4

def PERF_TXN_ASYNC : Nat := 8

def PERF_TXN_RETRY : Nat := 16

def PERF_TXN_CONFLICT : Nat := 32

def PERF_TXN_CAPACITY_WRITE : Nat := 64

def PERF_TXN_CAPACITY_READ : Nat := 128

def PERF_TXN_ABORT_SHIFT : Nat := 32

def PERF_MEM_OP_NA : Nat := 1

def PERF_MEM_OP_LOAD : Nat := 2

def PERF_MEM_OP_STORE : Nat := 4

def PERF_MEM_OP_PFETCH : Nat := 8

def PERF_MEM_OP_EXEC : Nat := 16

def PERF_MEM_LVL_SHIFT : Nat := 5

def PERF_MEM_LVL_NA : Nat := 1

def PERF_MEM_LVL_HIT : Nat := 2

def PERF_MEM_LVL_MISS : Nat := 4

def PERF_MEM_LVL_L1 : Nat := 8

def PERF_MEM_LVL_LFB : Nat := 16

def PERF_MEM_LVL_L2 : Nat := 32

def PERF_MEM_LVL_L3 : Nat := 64

def PERF_MEM_LVL_LOC_RAM : Nat := 128

def PERF_MEM_LVL_REM_RAM1 : Nat := 256

def PERF_MEM_LVL_REM_RAM2 : Nat := 512

def PERF_MEM_LVL_REM_CCE1 : Nat := 1024

def PERF_MEM_LVL_REM_CCE2 : Nat := 2048

def PERF_MEM_LVL_IO : Nat := 4096

def PERF_MEM_LVL_UNC : Nat := 8192

def PERF_MEM_SNOOP_SHIFT : Nat := 19

def PERF_MEM_SNOOP_NA : Nat := 1

def PERF_MEM_SNOOP_NONE : Nat := 2

def PERF_MEM_SNOOP_HIT : Nat := 4

def PERF_MEM_SNOOP_MISS : Nat := 8

def PERF_MEM_SNOOP_HITM : Nat := 16

def PERF_MEM_LOCK_SHIFT : Nat := 24

def PERF_MEM_LOCK_NA : Nat := 1

def PERF_MEM_LOCK_LOCKED : Nat := 2

def PERF_MEM_TLB_SHIFT : Nat := 26

def PERF_MEM_TLB_NA : Nat := 1

def PERF_MEM_TLB_HIT : Nat := 2

def PERF_MEM_TLB_MISS : Nat := 4

def PERF_MEM_TLB_L1 : Nat := 8

def PERF_MEM_TLB_L2 : Nat := 16

def PERF_MEM_TLB_WK : Nat := 32

def PERF_MEM_TLB_OS : Nat := 64

def PERF_MEM_LVLNUM_SHIFT : Nat := 33

def PERF_MEM_LVLNUM_L1 : Nat := 1

def PERF_MEM_LVLNUM_L2 : Nat := 2

def PERF_MEM_LVLNUM_L3 : Nat := 3

def PERF_MEM_LVLNUM_L4 : Nat := 4

def PERF_MEM_LVLNUM_L2_MHB : Nat := 5

def PERF_MEM_LVLNUM_MSC : Nat := 6

def PERF_MEM_LVLNUM_UNC : Nat := 8

def PERF_MEM_LVLNUM_CXL : Nat := 9

def PERF_MEM_LVLNUM_IO : Nat := 10

def PERF_MEM_LVLNUM_ANY_CACHE : Nat := 11

def PERF_MEM_LVLNUM_LFB : Nat := 12

def PERF_MEM_LVLNUM_RAM : Nat := 13

def PERF_MEM_LVLNUM_PMEM : Nat := 14

def PERF_MEM_LVLNUM_NA : Nat := 15

def PERF_MEM_REMOTE_SHIFT : Nat := 37

def PERF_MEM_SNOOPX_SHIFT : Nat := 38

def PERF_MEM_SNOOPX_FWD : Nat := 1

def PERF_MEM_SNOOPX_PEER : Nat := 2

def PERF_MEM_BLK_SHIFT : Nat := 40

def PERF_MEM_BLK_NA : Nat := 1

def PERF_MEM_BLK_DATA : Nat := 2

def PERF_MEM_BLK_ADDR : Nat := 4

def PERF_MEM_HOPS_SHIFT : Nat := 43

def PERF_MEM_HOPS_0 : Nat := 1

def PERF_MEM_HOPS_1 : Nat := 2

def PERF_MEM_HOPS_2 : Nat := 3

def PERF_MEM_HOPS_3 : Nat := 4

def PERF_RECORD_KSYMBOL_TYPE_UNKNOWN : Nat := 0

def PERF_RECORD_KSYMBOL_TYPE_BPF : Nat := 1

def PERF_RECORD_KSYMBOL_TYPE_OOL : Nat := 2

def PERF_RECORD_KSYMBOL_FLAGS_UNREGISTER : Nat := 1

def PERF_BPF_EVENT_UNKNOWN : Nat := 0

def PERF_BPF_EVENT_PROG_LOAD : Nat := 1

def PERF_BPF_EVENT_PROG_UNLOAD : Nat := 2

def PERF_AUX_FLAG_TRUNCATED : Nat := 1

def PERF_AUX_FLAG_OVERWRITE : Nat := 2

def PERF_AUX_FLAG_PARTIAL : Nat := 4

def PERF_AUX_FLAG_COLLISION : Nat := 8

def PERF_AUX_FLAG_PMU_FORMAT_TYPE_MASK : Nat := 65280

def BUILD_ID_SIZE_MAX : Nat := 20

def NET_NS_INDEX : Nat := 0

def UTS_NS_INDEX : Nat := 1

def IPC_NS_INDEX : Nat := 2

def PID_NS_INDEX : Nat := 3

def USER_NS_INDEX : Nat := 4

def MNT_NS_INDEX : Nat := 5

def CGROUP_NS_INDEX : Nat := 6

/-- A walking pointer through a record's bytes: the remaining bytes and the
byte offset from the (8-aligned) record start, needed because
`ptr.align_offset(align_of::<u64>())` depends on the absolute position. -/
structure Rd where
  bs : List Nat
  pos : Nat
  deriving Repr, DecidableEq

/-- `deref_offset::<u64>`. -/
def Rd.u64 (r : Rd) : Nat × Rd := (leVal (r.bs.take 8), ⟨r.bs.drop 8, r.pos + 8⟩)

/-- `deref_offset::<u32>`. -/
def Rd.u32 (r : Rd) : Nat × Rd := (leVal (r.bs.take 4), ⟨r.bs.drop 4, r.pos + 4⟩)

/-- `deref_offset::<u16>`. -/
def Rd.u16 (r : Rd) : Nat × Rd := (leVal (r.bs.take 2), ⟨r.bs.drop 2, r.pos + 2⟩)

/-- `deref_offset::<u8>`. -/
def Rd.u8 (r : Rd) : Nat × Rd := (leVal (r.bs.take 1), ⟨r.bs.drop 1, r.pos + 1⟩)

/-- `slice::from_raw_parts(ptr, n)` followed by `ptr.add(n)`. -/
def Rd.bytes (n : Nat) (r : Rd) : List Nat × Rd :=
  (r.bs.take n, ⟨r.bs.drop n, r.pos + n⟩)

/-- `ptr.add(n)`. -/
def Rd.skip (n : Nat) (r : Rd) : Rd := ⟨r.bs.drop n, r.pos + n⟩

/-- `ptr.add(ptr.align_offset(align_of::<u64>()))` for a pointer that sits
`pos` bytes after an 8-aligned record start. -/
def Rd.align8 (r : Rd) : Rd :=
  let k := (8 - r.pos % 8) % 8
  ⟨r.bs.drop k, r.pos + k⟩

/-- `CStr::from_ptr` (bytes up to the NUL) and the advance past
`as_bytes_with_nul()` used by the record decoders. -/
def Rd.cstr (r : Rd) : List Nat × Rd :=
  let s := r.bs.takeWhile (· ≠ 0)
  (s, ⟨r.bs.drop (s.length + 1), r.pos + (s.length + 1)⟩)

/-- Read `n` little-endian u64 values. -/
def rdU64s : Nat → Rd → List Nat × Rd
  | 0, r => ([], r)
  | n + 1, r =>
    let (v, r) := r.u64
    let (vs, r) := rdU64s n r
    (v :: vs, r)

/-- Conditionally read a u64 (the `when!(flag, u64)` macro). -/
def rdOptU64 (b : Bool) (r : Rd) : Option Nat × Rd :=
  if b then
    let (v, r) := r.u64
    (some v, r)
  else
    (none, r)

/-- `Priv` (src/sample/record/mod.rs lines 153-181), the record cpumode. -/
inductive PrivLevel where
  | User
  | Kernel
  | Hv
  | GuestUser
  | GuestKernel
  | Unknown
  deriving Repr, DecidableEq

/-- `Priv::from_misc`: the low 3 bits of `misc`; unmatched values decode to
`Unknown` (for compatibility, not ABI). -/
def PrivLevel.fromMisc (misc : Nat) : PrivLevel :=
  let m := misc &&& PERF_RECORD_MISC_CPUMODE_MASK
  if m = PERF_RECORD_MISC_USER then .User
  else if m = PERF_RECORD_MISC_KERNEL then .Kernel
  else if m = PERF_RECORD_MISC_HYPERVISOR then .Hv
  else if m = PERF_RECORD_MISC_GUEST_USER then .GuestUser
  else if m = PERF_RECORD_MISC_GUEST_KERNEL then .GuestKernel
  else .Unknown

/-- The `sample_id` trailer decode applied at the current read position. -/
def Rd.recordId (r : Rd) (sia : Option Nat) : Option RecordId :=
  sia.map fun ty => recordIdFromPtr r.bs ty

/-- `Exit`/`Fork` (src/sample/record/task.rs). -/
structure ExitRec where
  record_id : Option RecordId
  task : RTask
  parent_task : RTask
  time : Nat
  deriving Repr, DecidableEq

/-- `Exit::from_ptr`. -/
def exitFromPtr (r : Rd) (sia : Option Nat) : ExitRec :=
  let (pid, r) := r.u32
  let (ppid, r) := r.u32
  let (tid, r) := r.u32
  let (ptid, r) := r.u32
  let (time, r) := r.u64
  let record_id := r.recordId sia
  ⟨record_id, ⟨pid, tid⟩, ⟨ppid, ptid⟩, time⟩

/-- `Throttle`/`Unthrottle` (src/sample/record/throttle.rs). -/
structure ThrottleRec where
  record_id : Option RecordId
  time : Nat
  id : Nat
  stream_id : Nat
  deriving Repr, DecidableEq

/-- `Throttle::from_ptr`. -/
def throttleFromPtr (r : Rd) (sia : Option Nat) : ThrottleRec :=
  let (time, r) := r.u64
  let (id, r) := r.u64
  let (stream_id, r) := r.u64
  ⟨r.recordId sia, time, id, stream_id⟩

/-- `LostRecords` (src/sample/record/lost.rs). -/
structure LostRecordsRec where
  record_id : Option RecordId
  id : Nat
  lost_records : Nat
  deriving Repr, DecidableEq

/-- `LostRecords::from_ptr`. -/
def lostRecordsFromPtr (r : Rd) (sia : Option Nat) : LostRecordsRec :=
  let (id, r) := r.u64
  let (lost, r) := r.u64
  ⟨r.recordId sia, id, lost⟩

/-- `LostSamples` (src/sample/record/lost.rs). -/
structure LostSamplesRec where
  record_id : Option RecordId
  lost_samples : Nat
  deriving Repr, DecidableEq

/-- `LostSamples::from_ptr`. -/
def lostSamplesFromPtr (r : Rd) (sia : Option Nat) : LostSamplesRec :=
  let (lost, r) := r.u64
  ⟨r.recordId sia, lost⟩

/-- `ItraceStart` (src/sample/record/itrace.rs). -/
structure ItraceStartRec where
  record_id : Option RecordId
  task : RTask
  deriving Repr, DecidableEq

/-- `ItraceStart::from_ptr`. -/
def itraceStartFromPtr (r : Rd) (sia : Option Nat) : ItraceStartRec :=
  let (pid, r) := r.u32
  let (tid, r) := r.u32
  ⟨r.recordId sia, ⟨pid, tid⟩⟩

/-- `ctx::Switch`. -/
inductive SwitchInfo where
  | OutTo (task : Option RTask) (preempt : Bool)
  | InFrom (task : Option RTask)
  deriving Repr, DecidableEq

/-- `CtxSwitch` (src/sample/record/ctx.rs). -/
structure CtxSwitchRec where
  record_id : Option RecordId
  info : SwitchInfo
  deriving Repr, DecidableEq

/-- `CtxSwitch::from_ptr`. -/
def ctxSwitchFromPtr (r : Rd) (cpuWide : Bool) (misc : Nat)
    (sia : Option Nat) : CtxSwitchRec :=
  let (task, r) :=
    if cpuWide then
      let (pid, r) := r.u32
      let (tid, r) := r.u32
      (some (⟨pid, tid⟩ : RTask), r)
    else (none, r)
  let info :=
    if hasFlag misc PERF_RECORD_MISC_SWITCH_OUT then
      .OutTo task (hasFlag misc PERF_RECORD_MISC_SWITCH_OUT_PREEMPT)
    else
      SwitchInfo.InFrom task
  ⟨r.recordId sia, info⟩

/-- `Comm` (src/sample/record/comm.rs). -/
structure CommRec where
  record_id : Option RecordId
  by_execve : Bool
  task : RTask
  comm : List Nat
  deriving Repr, DecidableEq

/-- `Comm::from_ptr`: pid/tid, a C string, then (only for the trailer) the
advance past the NUL and the realignment to 8 bytes. -/
def commFromPtr (r : Rd) (misc : Nat) (sia : Option Nat) : CommRec :=
  let (pid, r) := r.u32
  let (tid, r) := r.u32
  let (comm, r) := r.cstr
  let record_id := r.align8.recordId sia
  ⟨record_id, hasFlag misc PERF_RECORD_MISC_COMM_EXEC, ⟨pid, tid⟩, comm⟩

/-- `Cgroup` (src/sample/record/cgroup.rs). -/
structure CgroupRec where
  record_id : Option RecordId
  id : Nat
  path : List Nat
  deriving Repr, DecidableEq

/-- `Cgroup::from_ptr`. -/
def cgroupFromPtr (r : Rd) (sia : Option Nat) : CgroupRec :=
  let (id, r) := r.u64
  let (path, r) := r.cstr
  ⟨r.align8.recordId sia, id, path⟩

/-- `ksymbol::Type`. -/
inductive KsymbolType where
  | Bpf
  | OutOfLine
  | Unknown
  deriving Repr, DecidableEq

/-- `ksymbol::State`. -/
inductive KsymbolState where
  | Reg
  | Unreg
  deriving Repr, DecidableEq

/-- `Ksymbol` (src/sample/record/ksymbol.rs). -/
structure KsymbolRec where
  record_id : Option RecordId
  ty : KsymbolType
  name : List Nat
  state : KsymbolState
  addr : Nat
  len : Nat
  deriving Repr, DecidableEq

/-- `Ksymbol::from_ptr`.  (The source maps a set `UNREGISTER` flag to
`State::Reg`; embedded as written.) -/
def ksymbolFromPtr (r : Rd) (sia : Option Nat) : KsymbolRec :=
  let (addr, r) := r.u64
  let (len, r) := r.u32
  let (tyv, r) := r.u16
  let ty :=
    if tyv = PERF_RECORD_KSYMBOL_TYPE_BPF then KsymbolType.Bpf
    else if tyv = PERF_RECORD_KSYMBOL_TYPE_OOL then KsymbolType.OutOfLine
    else KsymbolType.Unknown
  let (flags, r) := r.u16
  let (name, r) := r.cstr
  let record_id := r.align8.recordId sia
  let state :=
    if hasFlag flags PERF_RECORD_KSYMBOL_FLAGS_UNREGISTER then KsymbolState.Reg
    else KsymbolState.Unreg
  ⟨record_id, ty, name, state, addr, len⟩

/-- `TextPoke` (src/sample/record/text_poke.rs). -/
structure TextPokeRec where
  record_id : Option RecordId
  addr : Nat
  old_bytes : List Nat
  new_bytes : List Nat
  deriving Repr, DecidableEq

/-- `TextPoke::from_ptr`. -/
def textPokeFromPtr (r : Rd) (sia : Option Nat) : TextPokeRec :=
  let (addr, r) := r.u64
  let (old_len, r) := r.u16
  let (new_len, r) := r.u16
  let (bytes, r) := r.bytes (old_len + new_len)
  let record_id := r.align8.recordId sia
  ⟨record_id, addr, bytes.take old_len, bytes.drop old_len⟩

/-- `bpf::Type`. -/
inductive BpfEventType where
  | ProgLoad
  | ProgUnload
  | Unknown
  deriving Repr, DecidableEq

/-- `BpfEvent` (src/sample/record/bpf.rs). -/
structure BpfEventRec where
  record_id : Option RecordId
  ty : BpfEventType
  id : Nat
  tag : List Nat
  flags : Nat
  deriving Repr, DecidableEq

/-- `BpfEvent::from_ptr`. -/
def bpfEventFromPtr (r : Rd) (sia : Option Nat) : BpfEventRec :=
  let (tyv, r) := r.u16
  let ty :=
    if tyv = PERF_BPF_EVENT_PROG_LOAD then BpfEventType.ProgLoad
    else if tyv = PERF_BPF_EVENT_PROG_UNLOAD then BpfEventType.ProgUnload
    else BpfEventType.Unknown
  let (flags, r) := r.u16
  let (id, r) := r.u32
  let (tag, r) := r.bytes 8
  ⟨r.recordId sia, ty, id, tag, flags⟩

/-- `Aux` (src/sample/record/auxiliary.rs); `part` models the `partial`
flag. -/
structure AuxRec where
  record_id : Option RecordId
  offset : Nat
  size : Nat
  truncated : Bool
  overwrite : Bool
  part : Bool
  collision : Bool
  pmu_format_type : Nat
  deriving Repr, DecidableEq

/-- `Aux::from_ptr`. -/
def auxFromPtr (r : Rd) (sia : Option Nat) : AuxRec :=
  let (offset, r) := r.u64
  let (size, r) := r.u64
  let (flags, r) := r.u64
  ⟨r.recordId sia, offset, size,
    hasFlag flags PERF_AUX_FLAG_TRUNCATED,
    hasFlag flags PERF_AUX_FLAG_OVERWRITE,
    hasFlag flags PERF_AUX_FLAG_PARTIAL,
    hasFlag flags PERF_AUX_FLAG_COLLISION,
    (flags &&& PERF_AUX_FLAG_PMU_FORMAT_TYPE_MASK) >>> 8⟩

/-- `AuxOutputHwId` (src/sample/record/auxiliary.rs). -/
structure AuxOutputHwIdRec where
  record_id : Option RecordId
  hw_id : Nat
  deriving Repr, DecidableEq

/-- `AuxOutputHwId::from_ptr`. -/
def auxOutputHwIdFromPtr (r : Rd) (sia : Option Nat) : AuxOutputHwIdRec :=
  let (hw_id, r) := r.u64
  ⟨r.recordId sia, hw_id⟩

/-- `ns::LinkInfo`. -/
structure LinkInfo where
  dev : Nat
  inode : Nat
  deriving Repr, DecidableEq

/-- `Namespaces` (src/sample/record/ns.rs). -/
structure NamespacesRec where
  record_id : Option RecordId
  task : RTask
  ns_net : LinkInfo
  ns_uts : LinkInfo
  ns_ipc : LinkInfo
  ns_pid : LinkInfo
  ns_user : LinkInfo
  ns_mnt : LinkInfo
  ns_cgroup : LinkInfo
  deriving Repr, DecidableEq

/-- Read `n` `{dev, inode}` pairs. -/
def rdLinkInfos : Nat → Rd → List LinkInfo × Rd
  | 0, r => ([], r)
  | n + 1, r =>
    let (dev, r) := r.u64
    let (inode, r) := r.u64
    let (rest, r) := rdLinkInfos n r
    (⟨dev, inode⟩ :: rest, r)

/-- `Namespaces::from_ptr` (reads the fixed `NR_NAMESPACES = 7` array). -/
def namespacesFromPtr (r : Rd) (sia : Option Nat) : NamespacesRec :=
  let (pid, r) := r.u32
  let (tid, r) := r.u32
  let (nss, r) := rdLinkInfos 7 r
  let record_id := r.recordId sia
  ⟨record_id, ⟨pid, tid⟩,
    nss.getD NET_NS_INDEX ⟨0, 0⟩, nss.getD UTS_NS_INDEX ⟨0, 0⟩,
    nss.getD IPC_NS_INDEX ⟨0, 0⟩, nss.getD PID_NS_INDEX ⟨0, 0⟩,
    nss.getD USER_NS_INDEX ⟨0, 0⟩, nss.getD MNT_NS_INDEX ⟨0, 0⟩,
    nss.getD CGROUP_NS_INDEX ⟨0, 0⟩⟩

/-- `mmap::Info`: device numbers or an ELF build ID. -/
inductive MmapInfo where
  | Device (major minor inode inode_gen : Nat)
  | BuildId (bytes : List Nat)
  deriving Repr, DecidableEq

/-- `mmap::Ext`. -/
structure MmapExt where
  prot : Nat
  flags : Nat
  info : MmapInfo
  deriving Repr, DecidableEq

/-- `Mmap` (src/sample/record/mmap.rs). -/
structure MmapRec where
  record_id : Option RecordId
  executable : Bool
  task : RTask
  addr : Nat
  len : Nat
  file : List Nat
  page_offset : Nat
  ext : Option MmapExt
  deriving Repr, DecidableEq

/-- `Mmap::from_ptr` (`v2` selects `PERF_RECORD_MMAP2`; a misc bit selects
the build-id union arm, whose payload is `len` bytes inside a fixed
20-byte field). -/
def mmapFromPtr (r : Rd) (misc : Nat) (v2 : Bool) (sia : Option Nat) : MmapRec :=
  let (pid, r) := r.u32
  let (tid, r) := r.u32
  let (addr, r) := r.u64
  let (len, r) := r.u64
  let (page_offset, r) := r.u64
  let (ext, r) :=
    if v2 then
      if hasFlag misc PERF_RECORD_MISC_MMAP_BUILD_ID then
        let (blen, r) := r.u8
        let r := r.skip 3
        let bid := (r.bytes blen).1
        let r := r.skip BUILD_ID_SIZE_MAX
        let (prot, r) := r.u32
        let (flags, r) := r.u32
        (some (⟨prot, flags, .BuildId bid⟩ : MmapExt), r)
      else
        let (major, r) := r.u32
        let (minor, r) := r.u32
        let (inode, r) := r.u64
        let (inode_gen, r) := r.u64
        let (prot, r) := r.u32
        let (flags, r) := r.u32
        (some (⟨prot, flags, .Device major minor inode inode_gen⟩ : MmapExt), r)
    else (none, r)
  let (file, r) := r.cstr
  let record_id := r.align8.recordId sia
  ⟨record_id, !hasFlag misc PERF_RECORD_MISC_MMAP_DATA, ⟨pid, tid⟩,
    addr, len, file, page_offset, ext⟩

/-- `Read` (src/sample/record/read.rs). -/
structure ReadRec where
  record_id : Option RecordId
  task : RTask
  stat : Stat
  deriving Repr, DecidableEq

/-- Run `Stat::from_ptr_offset` at the current read position. -/
def rdStat (rf : Nat) (r : Rd) : Stat × Rd :=
  let (s, rest) := statFromPtrOffset r.bs rf
  (s, ⟨rest, r.pos + (r.bs.length - rest.length)⟩)

/-- `Read::from_ptr`. -/
def readFromPtr (r : Rd) (rf : Nat) (sia : Option Nat) : ReadRec :=
  let (pid, r) := r.u32
  let (tid, r) := r.u32
  let (stat, r) := rdStat rf r
  ⟨r.recordId sia, ⟨pid, tid⟩, stat⟩

/-- `sample::Abi` (register-set ABI tag). -/
inductive Abi where
  | abi32
  | abi64
  deriving Repr, DecidableEq

/-- `parse_regs` (src/sample/record/sample.rs lines 351-369): the 64-bit
ABI word is truncated `as u32` before matching; a truncated tag of `NONE`
means the register body is absent; `32`/`64` select the ABI after the body
is read; any other truncated tag hits `unimplemented!()`, modelled as the
error. -/
def parseRegs (len : Nat) (r : Rd) : Except Unit (Option (List Nat × Abi) × Rd) :=
  let (abi64, r) := r.u64
  let abi := abi64 % 2 ^ 32
  if abi = PERF_SAMPLE_REGS_ABI_NONE then
    .ok (none, r)
  else
    let (regs, r) := rdU64s len r
    if abi = PERF_SAMPLE_REGS_ABI_32 then .ok (some (regs, .abi32), r)
    else if abi = PERF_SAMPLE_REGS_ABI_64 then .ok (some (regs, .abi64), r)
    else .error ()

/-- `sample::BranchType`. -/
inductive BranchType where
  | Unknown
  | Cond
  | Uncond
  | Ind
  | Call
  | IndCall
  | Ret
  | Syscall
  | Sysret
  | CondCall
  | CondRet
  | Eret
  | Irq
  | SysErr
  | NoTx
  | DataFault
  | AlignFault
  | InstrFault
  | Arch1
  | Arch2
  | Arch3
  | Arch4
  | Arch5
  deriving Repr, DecidableEq

/-- `sample::BranchSpec`. -/
inductive BranchSpec where
  | Na
  | Wrong
  | Correct
  | NoSpecCorrect
  deriving Repr, DecidableEq

/-- `sample::BranchPriv`. -/
inductive BranchPriv where
  | Unknown
  | User
  | Kernel
  | Hv
  deriving Repr, DecidableEq

/-- `sample::Entry` (one LBR entry). -/
structure LbrEntry where
  from_ : Nat
  to_ : Nat
  mis : Bool
  pred : Bool
  in_tx : Bool
  abort : Bool
  cycles : Nat
  branch_type : BranchType
  branch_spec : BranchSpec
  branch_priv : BranchPriv
  counter : Option Nat
  deriving Repr, DecidableEq

/-- The `new_type` decode of `to_entry` (the `PERF_BR_EXTEND_ABI` arm):
bits 26..30; unmatched values decode to `Unknown`. -/
def decodeNewType (v : Nat) : BranchType :=
  if v = PERF_BR_NEW_FAULT_DATA then .DataFault
  else if v = PERF_BR_NEW_FAULT_ALGN then .AlignFault
  else if v = PERF_BR_NEW_FAULT_INST then .InstrFault
  else if v = PERF_BR_NEW_ARCH_1 then .Arch1
  else if v = PERF_BR_NEW_ARCH_2 then .Arch2
  else if v = PERF_BR_NEW_ARCH_3 then .Arch3
  else if v = PERF_BR_NEW_ARCH_4 then .Arch4
  else if v = PERF_BR_NEW_ARCH_5 then .Arch5
  else .Unknown

/-- The branch-type decode of `to_entry`: bits 20..24; `PERF_BR_EXTEND_ABI`
switches to the `new_type` field; unmatched values decode to `Unknown`. -/
def decodeBranchType (v newType : Nat) : BranchType :=
  if v = PERF_BR_UNKNOWN then .Unknown
  else if v = PERF_BR_COND then .Cond
  else if v = PERF_BR_UNCOND then .Uncond
  else if v = PERF_BR_IND then .Ind
  else if v = PERF_BR_CALL then .Call
  else if v = PERF_BR_IND_CALL then .IndCall
  else if v = PERF_BR_RET then .Ret
  else if v = PERF_BR_SYSCALL then .Syscall
  else if v = PERF_BR_SYSRET then .Sysret
  else if v = PERF_BR_COND_CALL then .CondCall
  else if v = PERF_BR_COND_RET then .CondRet
  else if v = PERF_BR_ERET then .Eret
  else if v = PERF_BR_IRQ then .Irq
  else if v = PERF_BR_SERROR then .SysErr
  else if v = PERF_BR_NO_TX then .NoTx
  else if v = PERF_BR_EXTEND_ABI then decodeNewType newType
  else .Unknown

/-- The speculation decode of `to_entry`: bits 24..26 cover all four
values, so the source's `unreachable!()` arm is dead. -/
def decodeBranchSpec (v : Nat) : BranchSpec :=
  if v = PERF_BR_SPEC_NA then .Na
  else if v = PERF_BR_SPEC_WRONG_PATH then .Wrong
  else if v = PERF_BR_NON_SPEC_CORRECT_PATH then .NoSpecCorrect
  else .Correct

/-- The privilege decode of `to_entry`: bits 30..33; unmatched values
decode to `Unknown`. -/
def decodeBranchPriv (v : Nat) : BranchPriv :=
  if v = PERF_BR_PRIV_UNKNOWN then .Unknown
  else if v = PERF_BR_PRIV_USER then .User
  else if v = PERF_BR_PRIV_KERNEL then .Kernel
  else if v = PERF_BR_PRIV_HV then .Hv
  else .Unknown

/-- `to_entry` (src/sample/record/sample.rs lines 393-482): unpack one
packed LBR entry `{from, to, bits}`. -/
def toEntry (layout : Nat × Nat × Nat) (counter : Option Nat) : LbrEntry :=
  let bits := layout.2.2
  { from_ := layout.1
    to_ := layout.2.1
    mis := hasFlag bits 1
    pred := hasFlag bits 2
    in_tx := hasFlag bits 4
    abort := hasFlag bits 8
    cycles := (bits >>> 4) % 2 ^ 16
    branch_type := decodeBranchType ((bits >>> 20) &&& 15) ((bits >>> 26) &&& 15)
    branch_spec := decodeBranchSpec ((bits >>> 24) &&& 3)
    branch_priv := decodeBranchPriv ((bits >>> 30) &&& 7)
    counter := counter }

/-- `sample::Lbr`. -/
structure Lbr where
  hw_index : Option Nat
  entries : List LbrEntry
  deriving Repr, DecidableEq

/-- Read `n` LBR `Layout { from, to, bits }` triples. -/
def rdLayouts : Nat → Rd → List (Nat × Nat × Nat) × Rd
  | 0, r => ([], r)
  | n + 1, r =>
    let (f, r) := r.u64
    let (t, r) := r.u64
    let (b, r) := r.u64
    let (rest, r) := rdLayouts n r
    ((f, t, b) :: rest, r)

/-- `parse_lbr` (src/sample/record/sample.rs lines 371-500): a zero entry
count yields `None`; the layouts are viewed as a slice without advancing
the pointer, which is advanced past them (and through the per-entry
counters) only when `PERF_SAMPLE_BRANCH_COUNTERS` is set — exactly as the
source does. -/
def parseLbr (branch_sample_type : Nat) (r : Rd) : Option Lbr × Rd :=
  let (len, r) := r.u64
  if len = 0 then
    (none, r)
  else
    let (hw_index, r) :=
      if hasFlag branch_sample_type PERF_SAMPLE_BRANCH_HW_INDEX then
        let (v, r) := r.u64
        (some v, r)
      else (none, r)
    let layouts := (rdLayouts len r).1
    if hasFlag branch_sample_type PERF_SAMPLE_BRANCH_COUNTERS then
      let r := r.skip (len * 24)
      let (counters, r) := rdU64s len r
      (some ⟨hw_index, (layouts.zip (counters.map some)).map
        fun p => toEntry p.1 p.2⟩, r)
    else
      (some ⟨hw_index, layouts.map fun l => toEntry l none⟩, r)

/-- `sample::Txn`. -/
structure Txn where
  elision : Bool
  tx : Bool
  is_sync : Bool
  is_async : Bool
  retry : Bool
  conflict : Bool
  capacity_read : Bool
  capacity_write : Bool
  code : Nat
  deriving Repr, DecidableEq

/-- `parse_txn` (src/sample/record/sample.rs lines 502-521). -/
def parseTxn (r : Rd) : Txn × Rd :=
  let (bits, r) := r.u64
  (⟨hasFlag bits PERF_TXN_ELISION,
    hasFlag bits PERF_TXN_TRANSACTION,
    hasFlag bits PERF_TXN_SYNC,
    hasFlag bits PERF_TXN_ASYNC,
    hasFlag bits PERF_TXN_RETRY,
    hasFlag bits PERF_TXN_CONFLICT,
    hasFlag bits PERF_TXN_CAPACITY_READ,
    hasFlag bits PERF_TXN_CAPACITY_WRITE,
    (bits >>> PERF_TXN_ABORT_SHIFT) % 2 ^ 32⟩, r)

/-- `sample::MemOp`. -/
structure MemOp where
  na : Bool
  load : Bool
  store : Bool
  prefetch : Bool
  exec : Bool
  deriving Repr, DecidableEq

/-- `sample::MemLevel`. -/
structure MemLevel where
  na : Bool
  hit : Bool
  miss : Bool
  l1 : Bool
  lfb : Bool
  l2 : Bool
  l3 : Bool
  loc_ram : Bool
  rem_ram1 : Bool
  rem_ram2 : Bool
  rem_cce1 : Bool
  rem_cce2 : Bool
  io : Bool
  unc : Bool
  deriving Repr, DecidableEq

/-- `sample::MemSnoop`. -/
structure MemSnoop where
  na : Bool
  none_ : Bool
  hit : Bool
  miss : Bool
  hit_m : Bool
  fwd : Bool
  peer : Bool
  deriving Repr, DecidableEq

/-- `sample::MemLock`. -/
structure MemLock where
  na : Bool
  locked : Bool
  deriving Repr, DecidableEq

/-- `sample::MemTlb`. -/
structure MemTlb where
  na : Bool
  hit : Bool
  miss : Bool
  l1 : Bool
  l2 : Bool
  walker : Bool
  fault : Bool
  deriving Repr, DecidableEq

/-- `sample::MemLevel2`. -/
inductive MemLevel2 where
  | L1
  | L2
  | L3
  | L4
  | L2Mhb
  | Msc
  | Unc
  | Cxl
  | Io
  | AnyCache
  | Lfb
  | Ram
  | Pmem
  | Na
  | Unknown
  deriving Repr, DecidableEq

/-- `sample::MemBlock`. -/
structure MemBlock where
  na : Bool
  data : Bool
  addr : Bool
  deriving Repr, DecidableEq

/-- `sample::MemHop`. -/
inductive MemHop where
  | Core
  | Node
  | Socket
  | Board
  | Unknown
  deriving Repr, DecidableEq

/-- `sample::DataSource`. -/
structure DataSource where
  op : MemOp
  level : MemLevel
  snoop : MemSnoop
  lock : MemLock
  tlb : MemTlb
  level2 : MemLevel2
  remote : Bool
  block : MemBlock
  hops : MemHop
  deriving Repr, DecidableEq

/-- The `mem_lvl_num` decode of `parse_data_source` (bits 33..37);
unmatched values decode to `Unknown`. -/
def decodeMemLevel2 (v : Nat) : MemLevel2 :=
  if v = PERF_MEM_LVLNUM_L1 then .L1
  else if v = PERF_MEM_LVLNUM_L2 then .L2
  else if v = PERF_MEM_LVLNUM_L3 then .L3
  else if v = PERF_MEM_LVLNUM_L4 then .L4
  else if v = PERF_MEM_LVLNUM_L2_MHB then .L2Mhb
  else if v = PERF_MEM_LVLNUM_MSC then .Msc
  else if v = PERF_MEM_LVLNUM_UNC then .Unc
  else if v = PERF_MEM_LVLNUM_CXL then .Cxl
  else if v = PERF_MEM_LVLNUM_IO then .Io
  else if v = PERF_MEM_LVLNUM_ANY_CACHE then .AnyCache
  else if v = PERF_MEM_LVLNUM_LFB then .Lfb
  else if v = PERF_MEM_LVLNUM_RAM then .Ram
  else if v = PERF_MEM_LVLNUM_PMEM then .Pmem
  else if v = PERF_MEM_LVLNUM_NA then .Na
  else .Unknown

/-- The `mem_hops` decode of `parse_data_source` (bits 43..46); unmatched
values decode to `Unknown`. -/
def decodeMemHop (v : Nat) : MemHop :=
  if v = PERF_MEM_HOPS_0 then .Core
  else if v = PERF_MEM_HOPS_1 then .Node
  else if v = PERF_MEM_HOPS_2 then .Socket
  else if v = PERF_MEM_HOPS_3 then .Board
  else .Unknown

/-- `parse_data_source` (src/sample/record/sample.rs lines 523-684). -/
def parseDataSource (r : Rd) : DataSource × Rd :=
  let (bits, r) := r.u64
  let op : MemOp :=
    ⟨hasFlag bits PERF_MEM_OP_NA, hasFlag bits PERF_MEM_OP_LOAD,
      hasFlag bits PERF_MEM_OP_STORE, hasFlag bits PERF_MEM_OP_PFETCH,
      hasFlag bits PERF_MEM_OP_EXEC⟩
  let s1 := bits >>> PERF_MEM_LVL_SHIFT
  let level : MemLevel :=
    ⟨hasFlag s1 PERF_MEM_LVL_NA, hasFlag s1 PERF_MEM_LVL_HIT,
      hasFlag s1 PERF_MEM_LVL_MISS, hasFlag s1 PERF_MEM_LVL_L1,
      hasFlag s1 PERF_MEM_LVL_LFB, hasFlag s1 PERF_MEM_LVL_L2,
      hasFlag s1 PERF_MEM_LVL_L3, hasFlag s1 PERF_MEM_LVL_LOC_RAM,
      hasFlag s1 PERF_MEM_LVL_REM_RAM1, hasFlag s1 PERF_MEM_LVL_REM_RAM2,
      hasFlag s1 PERF_MEM_LVL_REM_CCE1, hasFlag s1 PERF_MEM_LVL_REM_CCE2,
      hasFlag s1 PERF_MEM_LVL_IO, hasFlag s1 PERF_MEM_LVL_UNC⟩
  let s2 := bits >>> PERF_MEM_SNOOP_SHIFT
  let s3 := bits >>> PERF_MEM_SNOOPX_SHIFT
  let snoop : MemSnoop :=
    ⟨hasFlag s2 PERF_MEM_SNOOP_NA, hasFlag s2 PERF_MEM_SNOOP_NONE,
      hasFlag s2 PERF_MEM_SNOOP_HIT, hasFlag s2 PERF_MEM_SNOOP_MISS,
      hasFlag s2 PERF_MEM_SNOOP_HITM, hasFlag s3 PERF_MEM_SNOOPX_FWD,
      hasFlag s3 PERF_MEM_SNOOPX_PEER⟩
  let s4 := bits >>> PERF_MEM_LOCK_SHIFT
  let lock : MemLock := ⟨hasFlag s4 PERF_MEM_LOCK_NA, hasFlag s4 PERF_MEM_LOCK_LOCKED⟩
  let s5 := bits >>> PERF_MEM_TLB_SHIFT
  let tlb : MemTlb :=
    ⟨hasFlag s5 PERF_MEM_TLB_NA, hasFlag s5 PERF_MEM_TLB_HIT,
      hasFlag s5 PERF_MEM_TLB_MISS, hasFlag s5 PERF_MEM_TLB_L1,
      hasFlag s5 PERF_MEM_TLB_L2, hasFlag s5 PERF_MEM_TLB_WK,
      hasFlag s5 PERF_MEM_TLB_OS⟩
  let level2 := decodeMemLevel2 ((bits >>> PERF_MEM_LVLNUM_SHIFT) &&& 15)
  let remote := hasFlag (bits >>> PERF_MEM_REMOTE_SHIFT) 1
  let s6 := bits >>> PERF_MEM_BLK_SHIFT
  let block : MemBlock :=
    ⟨hasFlag s6 PERF_MEM_BLK_NA, hasFlag s6 PERF_MEM_BLK_DATA,
      hasFlag s6 PERF_MEM_BLK_ADDR⟩
  let hops := decodeMemHop ((bits >>> PERF_MEM_HOPS_SHIFT) &&& 7)
  (⟨op, level, snoop, lock, tlb, level2, remote, block, hops⟩, r)

/-- `sample::Weight`. -/
inductive Weight where
  | Full (v : Nat)
  | Vars (var1 var2 var3 : Nat)
  deriving Repr, DecidableEq

/-- `Sample` (src/sample/record/sample.rs lines 12-83). -/
structure Sample where
  record_id : RecordId
  stat : Option Stat
  period : Option Nat
  cgroup : Option Nat
  call_chain : Option (List Nat)
  user_stack : Option (List Nat)
  data_addr : Option Nat
  data_phys_addr : Option Nat
  data_page_size : Option Nat
  data_source : Option DataSource
  code_addr : Option (Nat × Bool)
  code_page_size : Option Nat
  user_regs : Option (List Nat × Abi)
  intr_regs : Option (List Nat × Abi)
  raw : Option (List Nat)
  lbr : Option Lbr
  aux : Option (List Nat)
  txn : Option Txn
  weight : Option Weight
  deriving Repr, DecidableEq

/-- The `PERF_SAMPLE_IP` block of `Sample::from_ptr`: code address plus
the `PERF_RECORD_MISC_EXACT_IP` precision bit. -/
def rdCodeAddr (b : Bool) (misc : Nat) (r : Rd) : Option (Nat × Bool) × Rd :=
  if b then
    let (v, r) := r.u64
    (some (v, hasFlag misc PERF_RECORD_MISC_EXACT_IP), r)
  else (none, r)

/-- The `PERF_SAMPLE_TID` block of `Sample::from_ptr`: pid then tid. -/
def rdTask (b : Bool) (r : Rd) : Option RTask × Rd :=
  if b then
    let (pid, r) := r.u32
    let (tid, r) := r.u32
    (some (⟨pid, tid⟩ : RTask), r)
  else (none, r)

/-- The `PERF_SAMPLE_CPU` block of `Sample::from_ptr`: a `u32` followed by
a skipped `u32` pad. -/
def rdCpu (b : Bool) (r : Rd) : Option Nat × Rd :=
  if b then
    let (v, r) := r.u32
    (some v, r.skip 4)
  else (none, r)

/-- The `PERF_SAMPLE_READ` block of `Sample::from_ptr`. -/
def rdStatOpt (b : Bool) (read_format : Nat) (r : Rd) : Option Stat × Rd :=
  if b then
    let (s, r) := rdStat read_format r
    (some s, r)
  else (none, r)

/-- The `PERF_SAMPLE_CALLCHAIN` block of `Sample::from_ptr`: `nr` then that
many instruction pointers. -/
def rdCallChain (b : Bool) (r : Rd) : Option (List Nat) × Rd :=
  if b then
    let (len, r) := r.u64
    let (ips, r) := rdU64s len r
    (some ips, r)
  else (none, r)

/-- The `PERF_SAMPLE_RAW` block of `Sample::from_ptr`: a `u32` length, that
many bytes, then an 8-byte realignment. -/
def rdRaw (b : Bool) (r : Rd) : Option (List Nat) × Rd :=
  if b then
    let (len, r) := r.u32
    let (bytes, r) := r.bytes len
    (some bytes, r.align8)
  else (none, r)

/-- The `PERF_SAMPLE_BRANCH_STACK` block of `Sample::from_ptr`, deferring
to `parse_lbr`. -/
def rdLbr (b : Bool) (branch_sample_type : Nat) (r : Rd) : Option Lbr × Rd :=
  if b then parseLbr branch_sample_type r else (none, r)

/-- The `PERF_SAMPLE_REGS_USER` / `PERF_SAMPLE_REGS_INTR` blocks of
`Sample::from_ptr`, deferring to the fallible `parse_regs`. -/
def rdRegs (b : Bool) (regs : Nat) (r : Rd) :
    Except Unit (Option (List Nat × Abi) × Rd) :=
  if b then parseRegs regs r else .ok (none, r)

/-- The `PERF_SAMPLE_STACK_USER` block of `Sample::from_ptr`: the static
dump size, the dump, and (when the size is nonzero) the trailing
`dyn_size`; the field keeps only the first `dyn_size` dumped bytes via the
slice `bytes[..dyn_len]`, which panics (modelled as the error) when
`dyn_size` exceeds the dumped size. -/
def rdUserStack (b : Bool) (r : Rd) : Except Unit (Option (List Nat) × Rd) :=
  if b then
    let (len, r) := r.u64
    let (bytes, r) := r.bytes len
    let (dyn_len, r) :=
      if 0 < len then
        let (d, r) := r.u64
        (d, r)
      else (0, r)
    if dyn_len ≤ len then .ok (some (bytes.take dyn_len), r)
    else .error ()
  else .ok (none, r)

/-- The `PERF_SAMPLE_WEIGHT` / `PERF_SAMPLE_WEIGHT_STRUCT` block of
`Sample::from_ptr`. -/
def rdWeight (b1 b2 : Bool) (r : Rd) : Option Weight × Rd :=
  if b1 then
    let (v, r) := r.u64
    (some (Weight.Full v), r)
  else if b2 then
    let (v1, r) := r.u32
    let (v2, r) := r.u16
    let (v3, r) := r.u16
    (some (Weight.Vars v1 v2 v3), r)
  else (none, r)

/-- The `PERF_SAMPLE_DATA_SRC` block of `Sample::from_ptr`. -/
def rdDataSource (b : Bool) (r : Rd) : Option DataSource × Rd :=
  if b then
    let (d, r) := parseDataSource r
    (some d, r)
  else (none, r)

/-- The `PERF_SAMPLE_TRANSACTION` block of `Sample::from_ptr`. -/
def rdTxn (b : Bool) (r : Rd) : Option Txn × Rd :=
  if b then
    let (t, r) := parseTxn r
    (some t, r)
  else (none, r)

/-- The `PERF_SAMPLE_AUX` block of `Sample::from_ptr`: a `u64` length then
that many bytes. -/
def rdAux (b : Bool) (r : Rd) : Option (List Nat) × Rd :=
  if b then
    let (len, r) := r.u64
    let (bytes, r) := r.bytes len
    (some bytes, r)
  else (none, r)

/-- `Sample::from_ptr` (src/sample/record/sample.rs lines 157-324): walk
the conditionally-present fields in the kernel's fixed order.  The fallible
reads are the two `parse_regs` calls and the user-stack slice. -/
def sampleFromPtr (r : Rd) (misc read_format sample_type user_regs intr_regs
    branch_sample_type : Nat) : Except Unit Sample := do
  let (code_addr, r) := rdCodeAddr (hasFlag sample_type PERF_SAMPLE_IP) misc r
  let (task, r) := rdTask (hasFlag sample_type PERF_SAMPLE_TID) r
  let (time, r) := rdOptU64 (hasFlag sample_type PERF_SAMPLE_TIME) r
  let (data_addr, r) := rdOptU64 (hasFlag sample_type PERF_SAMPLE_ADDR) r
  let (id, r) := rdOptU64 (hasFlag sample_type PERF_SAMPLE_ID) r
  let (stream_id, r) := rdOptU64 (hasFlag sample_type PERF_SAMPLE_STREAM_ID) r
  let (cpu, r) := rdCpu (hasFlag sample_type PERF_SAMPLE_CPU) r
  let (period, r) := rdOptU64 (hasFlag sample_type PERF_SAMPLE_PERIOD) r
  let (stat, r) := rdStatOpt (hasFlag sample_type PERF_SAMPLE_READ) read_format r
  let (call_chain, r) := rdCallChain (hasFlag sample_type PERF_SAMPLE_CALLCHAIN) r
  let (raw, r) := rdRaw (hasFlag sample_type PERF_SAMPLE_RAW) r
  let (lbr, r) :=
    rdLbr (hasFlag sample_type PERF_SAMPLE_BRANCH_STACK) branch_sample_type r
  let (user_regs, r) ← rdRegs (hasFlag sample_type PERF_SAMPLE_REGS_USER) user_regs r
  let (user_stack, r) ← rdUserStack (hasFlag sample_type PERF_SAMPLE_STACK_USER) r
  let (weight, r) := rdWeight (hasFlag sample_type PERF_SAMPLE_WEIGHT)
    (hasFlag sample_type PERF_SAMPLE_WEIGHT_STRUCT) r
  let (data_source, r) := rdDataSource (hasFlag sample_type PERF_SAMPLE_DATA_SRC) r
  let (txn, r) := rdTxn (hasFlag sample_type PERF_SAMPLE_TRANSACTION) r
  let (intr_regs, r) ← rdRegs (hasFlag sample_type PERF_SAMPLE_REGS_INTR) intr_regs r
  let (data_phys_addr, r) := rdOptU64 (hasFlag sample_type PERF_SAMPLE_PHYS_ADDR) r
  let (cgroup, r) := rdOptU64 (hasFlag sample_type PERF_SAMPLE_CGROUP) r
  let (data_page_size, r) := rdOptU64 (hasFlag sample_type PERF_SAMPLE_DATA_PAGE_SIZE) r
  let (code_page_size, r) := rdOptU64 (hasFlag sample_type PERF_SAMPLE_CODE_PAGE_SIZE) r
  let (aux, _) := rdAux (hasFlag sample_type PERF_SAMPLE_AUX) r
  pure
    { record_id := ⟨id, stream_id, cpu, task, time⟩
      stat := stat
      period := period
      cgroup := cgroup
      call_chain := call_chain
      user_stack := user_stack
      data_addr := data_addr
      data_phys_addr := data_phys_addr
      data_page_size := data_page_size
      data_source := data_source
      code_addr := code_addr
      code_page_size := code_page_size
      user_regs := user_regs
      intr_regs := intr_regs
      raw := raw
      lbr := lbr
      aux := aux
      txn := txn
      weight := weight }

/-- `Record` (src/sample/record/mod.rs lines 43-99): one variant per known
record type; unknown types carry the complete raw bytes. -/
inductive Record where
  | Sample (s : Sample)
  | Mmap (m : MmapRec)
  | Read (m : ReadRec)
  | Cgroup (c : CgroupRec)
  | Ksymbol (k : KsymbolRec)
  | TextPoke (t : TextPokeRec)
  | BpfEvent (b : BpfEventRec)
  | CtxSwitch (c : CtxSwitchRec)
  | Namespaces (n : NamespacesRec)
  | ItraceStart (i : ItraceStartRec)
  | Aux (a : AuxRec)
  | AuxOutputHwId (a : AuxOutputHwIdRec)
  | Comm (c : CommRec)
  | Exit (e : ExitRec)
  | Fork (e : ExitRec)
  | Throttle (t : ThrottleRec)
  | Unthrottle (t : ThrottleRec)
  | LostRecords (l : LostRecordsRec)
  | LostSamples (l : LostSamplesRec)
  | Unknown (bytes : List Nat)
  deriving Repr, DecidableEq

/-- `UnsafeParser` (src/sample/record/mod.rs lines 341-348): the frozen
parser configuration captured from the attribute at sampler creation. -/
structure ParserCfg where
  sample_id_all : Bool
  sample_type : Nat
  read_format : Nat
  user_regs : Nat
  intr_regs : Nat
  branch_sample_type : Nat
  deriving Repr, DecidableEq

/-- `UnsafeParser::from_attr`. -/
def parserCfgFromAttr (a : Attr) : ParserCfg :=
  ⟨a.sample_id_all, a.sample_type, a.read_format,
    (Nat.bits a.sample_regs_user).count true,
    (Nat.bits a.sample_regs_intr).count true, a.branch_sample_type⟩

/-- The dispatch match of `UnsafeParser::parse` (src/sample/record/mod.rs
lines 397-441): map the record type to its decoder; a type matching no
`PERF_RECORD_*` constant yields `Unknown` with the complete raw bytes. -/
def dispatchRecord (p : ParserCfg) (bytes : List Nat) (ty misc : Nat)
    (r : Rd) (sia : Option Nat) : Except Unit Record := do
  if ty = PERF_RECORD_SAMPLE then do
      let s ← sampleFromPtr r misc p.read_format p.sample_type p.user_regs
        p.intr_regs p.branch_sample_type
      pure (Record.Sample s)
    else if ty = PERF_RECORD_MMAP then
      pure (Record.Mmap (mmapFromPtr r misc false sia))
    else if ty = PERF_RECORD_MMAP2 then
      pure (Record.Mmap (mmapFromPtr r misc true sia))
    else if ty = PERF_RECORD_READ then
      pure (Record.Read (readFromPtr r p.read_format sia))
    else if ty = PERF_RECORD_CGROUP then
      pure (Record.Cgroup (cgroupFromPtr r sia))
    else if ty = PERF_RECORD_KSYMBOL then
      pure (Record.Ksymbol (ksymbolFromPtr r sia))
    else if ty = PERF_RECORD_TEXT_POKE then
      pure (Record.TextPoke (textPokeFromPtr r sia))
    else if ty = PERF_RECORD_BPF_EVENT then
      pure (Record.BpfEvent (bpfEventFromPtr r sia))
    else if ty = PERF_RECORD_SWITCH then
      pure (Record.CtxSwitch (ctxSwitchFromPtr r false misc sia))
    else if ty = PERF_RECORD_SWITCH_CPU_WIDE then
      pure (Record.CtxSwitch (ctxSwitchFromPtr r true misc sia))
    else if ty = PERF_RECORD_NAMESPACES then
      pure (Record.Namespaces (namespacesFromPtr r sia))
    else if ty = PERF_RECORD_ITRACE_START then
      pure (Record.ItraceStart (itraceStartFromPtr r sia))
    else if ty = PERF_RECORD_AUX then
      pure (Record.Aux (auxFromPtr r sia))
    else if ty = PERF_RECORD_AUX_OUTPUT_HW_ID then
      pure (Record.AuxOutputHwId (auxOutputHwIdFromPtr r sia))
    else if ty = PERF_RECORD_COMM then
      pure (Record.Comm (commFromPtr r misc sia))
    else if ty = PERF_RECORD_EXIT then
      pure (Record.Exit (exitFromPtr r sia))
    else if ty = PERF_RECORD_FORK then
      pure (Record.Fork (exitFromPtr r sia))
    else if ty = PERF_RECORD_THROTTLE then
      pure (Record.Throttle (throttleFromPtr r sia))
    else if ty = PERF_RECORD_UNTHROTTLE then
      pure (Record.Unthrottle (throttleFromPtr r sia))
    else if ty = PERF_RECORD_LOST then
      pure (Record.LostRecords (lostRecordsFromPtr r sia))
    else if ty = PERF_RECORD_LOST_SAMPLES then
      pure (Record.LostSamples (lostSamplesFromPtr r sia))
    else
      pure (Record.Unknown bytes)

/-- `UnsafeParser::parse` continued: read the `{u32 type, u16 misc, u16
size}` header, derive the cpumode, skip the size field and dispatch. -/
def parseRecordBytes (p : ParserCfg) (bytes : List Nat) :
    Except Unit (PrivLevel × Record) := do
  let r : Rd := ⟨bytes, 0⟩
  let (ty, r) := r.u32
  let (misc, r) := r.u16
  let record_priv := PrivLevel.fromMisc misc
  let r := r.skip 2
  let sia : Option Nat := if p.sample_id_all then some p.sample_type else none
  let record ← dispatchRecord p bytes ty misc r sia
  pure (record_priv, record)

/-- The known `PERF_RECORD_*` type values dispatched by the parser. -/
def knownRecordTypes : List Nat :=
  [PERF_RECORD_SAMPLE, PERF_RECORD_MMAP, PERF_RECORD_MMAP2, PERF_RECORD_READ,
    PERF_RECORD_CGROUP, PERF_RECORD_KSYMBOL, PERF_RECORD_TEXT_POKE,
    PERF_RECORD_BPF_EVENT, PERF_RECORD_SWITCH, PERF_RECORD_SWITCH_CPU_WIDE,
    PERF_RECORD_NAMESPACES, PERF_RECORD_ITRACE_START, PERF_RECORD_AUX,
    PERF_RECORD_AUX_OUTPUT_HW_ID, PERF_RECORD_COMM, PERF_RECORD_EXIT,
    PERF_RECORD_FORK, PERF_RECORD_THROTTLE, PERF_RECORD_UNTHROTTLE,
    PERF_RECORD_LOST, PERF_RECORD_LOST_SAMPLES]

/-- Parser configuration with only `PERF_SAMPLE_REGS_USER` enabled and an
empty register mask. -/
def regsPanicCfg : ParserCfg := ⟨false, PERF_SAMPLE_REGS_USER, 0, 0, 0, 0⟩

/-- A 16-byte `PERF_RECORD_SAMPLE` record whose register-ABI tag is 3
(neither `NONE`, `32` nor `64`): header `{type = 9, misc = 0, size = 16}`
followed by the u64 ABI word 3. -/
def regsPanicBytes : List Nat :=
  [9, 0, 0, 0, 0, 0, 16, 0, 3, 0, 0, 0, 0, 0, 0, 0]

/-- An 8-byte record of unknown type 99 with cpumode bits 7. -/
def unknownTyBytes : List Nat := [99, 0, 0, 0, 7, 0, 8, 0]

/-- A parser configuration with everything off. -/
def plainCfg : ParserCfg := ⟨false, 0, 0, 0, 0, 0⟩

/-- `PERF_SAMPLE_BRANCH_STACK | PERF_SAMPLE_STACK_USER`: the sample format
exercised by the C10 statement. -/
def stLbrStack : Nat := PERF_SAMPLE_BRANCH_STACK ||| PERF_SAMPLE_STACK_USER

theorem leBytes_length (n v : Nat) : (leBytes n v).length = n := by
  induction n generalizing v with
  | zero => rfl
  | succ n ih => simp [leBytes, ih]

theorem leVal_leBytes (n v : Nat) (h : v < 256 ^ n) : leVal (leBytes n v) = v := by
  induction n generalizing v with
  | zero => simp at h; simp [leBytes, leVal, h]
  | succ n ih =>
    have hv : v / 256 < 256 ^ n := by
      rw [Nat.div_lt_iff_lt_mul (by norm_num)]
      calc v < 256 ^ (n + 1) := h
        _ = 256 ^ n * 256 := by ring
    simp [leBytes, leVal, ih _ hv]
    omega

theorem rbChunkLen_eq_headerSizeAt (st : RbState) (h8 : 8 ≤ st.size)
    (ht : st.tail < st.size) : rbChunkLen st = headerSizeAt st := by
  unfold rbChunkLen headerSizeAt
  rcases Nat.lt_trichotomy 7 (st.size - st.tail) with h | h | h
  · rw [if_pos h, Nat.mod_eq_of_lt (by omega), Nat.mod_eq_of_lt (by omega)]
  · rw [if_neg (by omega), if_neg (by omega)]
    have h6 : (st.tail + 6) % st.size = st.tail + 6 := Nat.mod_eq_of_lt (by omega)
    have h7 : (st.tail + 7) % st.size = 0 := by
      have he : st.tail + 7 = st.size := by omega
      simp [he]
    rw [h6, h7]
  · rw [if_neg (by omega), if_pos h]
    have h6 : (st.tail + 6) % st.size = 6 - (st.size - st.tail) := by
      have he : st.tail + 6 = st.size + (6 - (st.size - st.tail)) := by omega
      rw [he, Nat.add_mod_left, Nat.mod_eq_of_lt (by omega)]
    have h7 : (st.tail + 7) % st.size = 7 - (st.size - st.tail) := by
      have he : st.tail + 7 = st.size + (7 - (st.size - st.tail)) := by omega
      rw [he, Nat.add_mod_left, Nat.mod_eq_of_lt (by omega)]
    rw [h6, h7]

theorem ringSlice_length (st : RbState) (s l : Nat) :
    (ringSlice st s l).length = l := by
  simp [ringSlice]

/-- C1: for every ring state observed by `Rb::lending_pop` (ring size `R`,
consumer tail below `R`): if the tail equals the acquire-loaded head taken
modulo `R` the pop returns `None`; otherwise it returns a chunk of exactly
`size` bytes starting at the tail offset, where `size` is the u16 at header
bytes 6..8 reconstructed across the ring end when the header straddles it;
the chunk is a borrowed in-ring view iff `tail + size ≤ R`, and otherwise an
owned copy holding the high part (tail to ring end) followed by the low part
(ring start onward); the advanced tail is `(tail + size) mod R`. -/
theorem lendingPop_spec (st : RbState) (h8 : 8 ≤ st.size)
    (ht : st.tail < st.size) :
    ((lendingPop st).1 = none ↔ st.tail = st.head % st.size) ∧
    (∀ c : CowChunk, (lendingPop st).1 = some c →
      c.bytes.length = headerSizeAt st ∧
      (c.owned = false ↔ st.tail + headerSizeAt st ≤ st.size) ∧
      (c.owned = false → c.bytes = ringSlice st st.tail (headerSizeAt st)) ∧
      (c.owned = true →
        c.bytes = ringSlice st st.tail (st.size - st.tail) ++
          ringSlice st 0 (st.tail + headerSizeAt st - st.size)) ∧
      c.newTail = (st.tail + headerSizeAt st) % st.size) := by
  have hck := rbChunkLen_eq_headerSizeAt st h8 ht
  constructor
  · unfold lendingPop
    by_cases he : st.tail = st.head % st.size
    · simp [he]
    · simp only [if_neg he]
      split
      · simp [he]
      · simp [he]
  · intro c hc
    unfold lendingPop at hc
    by_cases he : st.tail = st.head % st.size
    · simp [he] at hc
    · simp only [if_neg he] at hc
      rw [hck] at hc
      by_cases hb : st.tail + headerSizeAt st ≤ st.size
      · rw [if_pos hb] at hc
        simp only [Option.some.injEq] at hc
        subst hc
        refine ⟨ringSlice_length .., by simp [hb], fun _ => rfl, by simp, rfl⟩
      · rw [if_neg hb] at hc
        simp only [Option.some.injEq] at hc
        subst hc
        refine ⟨?_, by simp [hb], by simp, fun _ => rfl, rfl⟩
        simp only [List.length_append, ringSlice_length]
        omega

theorem lendingPop_spec_witness :
    (8 ≤ rbW.size ∧ rbW.tail < rbW.size) ∧
    (((lendingPop rbW).1 = none ↔ rbW.tail = rbW.head % rbW.size) ∧
    (∀ c : CowChunk, (lendingPop rbW).1 = some c →
      c.bytes.length = headerSizeAt rbW ∧
      (c.owned = false ↔ rbW.tail + headerSizeAt rbW ≤ rbW.size) ∧
      (c.owned = false → c.bytes = ringSlice rbW rbW.tail (headerSizeAt rbW)) ∧
      (c.owned = true →
        c.bytes = ringSlice rbW rbW.tail (rbW.size - rbW.tail) ++
          ringSlice rbW 0 (rbW.tail + headerSizeAt rbW - rbW.size)) ∧
      c.newTail = (rbW.tail + headerSizeAt rbW) % rbW.size)) :=
  ⟨⟨by decide, by decide⟩, lendingPop_spec rbW (by decide) (by decide)⟩

/-- C2: dropping a `CowChunk` stores the advanced tail to the shared tail
cursor with release ordering if and only if the chunk is a borrowed
(non-wrapping) view; for a copied (wrap-straddling) chunk the new tail was
already stored (release) inside `lending_pop` at read time, and the drop
performs no store at all (no second publication). -/
theorem cowChunkDrop_spec (st : RbState) (c : CowChunk)
    (stores : List (Nat × Bool)) (h : lendingPop st = (some c, stores)) :
    (cowChunkDropStores c = [(c.newTail, true)] ↔ c.owned = false) ∧
    (c.owned = false → stores = []) ∧
    (c.owned = true → stores = [(c.newTail, true)] ∧ cowChunkDropStores c = []) := by
  unfold lendingPop at h
  by_cases he : st.tail = st.head % st.size
  · simp [he] at h
  · simp only [if_neg he] at h
    by_cases hb : st.tail + rbChunkLen st ≤ st.size
    · rw [if_pos hb] at h
      obtain ⟨hc, hs⟩ := Prod.mk.injEq .. ▸ h
      simp only [Option.some.injEq] at hc
      subst hc
      subst hs
      simp [cowChunkDropStores]
    · rw [if_neg hb] at h
      obtain ⟨hc, hs⟩ := Prod.mk.injEq .. ▸ h
      simp only [Option.some.injEq] at hc
      subst hc
      subst hs
      simp [cowChunkDropStores]

theorem cowChunkDrop_spec_witness :
    lendingPop rbW = (some rbWChunk, []) ∧
    ((cowChunkDropStores rbWChunk = [(rbWChunk.newTail, true)] ↔
        rbWChunk.owned = false) ∧
    (rbWChunk.owned = false → ([] : List (Nat × Bool)) = []) ∧
    (rbWChunk.owned = true →
      ([] : List (Nat × Bool)) = [(rbWChunk.newTail, true)] ∧
        cowChunkDropStores rbWChunk = [])) :=
  ⟨by simp [lendingPop, rbW, rbWChunk, rbChunkLen, ringSlice],
    cowChunkDrop_spec rbW rbWChunk []
      (by simp [lendingPop, rbW, rbWChunk, rbChunkLen, ringSlice])⟩

theorem rdU64_leBytes (v : Nat) (rest : List Nat) (h : v < 2 ^ 64) :
    rdU64 (leBytes 8 v ++ rest) = (v, rest) := by
  unfold rdU64
  have hl : (leBytes 8 v).length = 8 := leBytes_length ..
  rw [List.take_left' hl, List.drop_left' hl,
    leVal_leBytes 8 v (by norm_num at h ⊢; omega)]

theorem rdWhen_encOpt (b : Bool) (v : Nat) (rest : List Nat) (h : v < 2 ^ 64) :
    rdWhen b (encOpt b v ++ rest) = (optOf b v, rest) := by
  cases b <;> simp [rdWhen, encOpt, optOf, rdU64_leBytes v rest h]

theorem rdSiblings_encGroupEntries (rf : Nat) (es : List (Nat × Nat × Nat))
    (rest : List Nat)
    (hb : ∀ e ∈ es, e.1 < 2 ^ 64 ∧ e.2.1 < 2 ^ 64 ∧ e.2.2 < 2 ^ 64) :
    rdSiblings rf es.length
        (encGroupEntries (hasFlag rf PERF_FORMAT_ID) (hasFlag rf PERF_FORMAT_LOST) es ++ rest) =
      (es.map fun e =>
        ⟨e.1, optOf (hasFlag rf PERF_FORMAT_ID) e.2.1,
          optOf (hasFlag rf PERF_FORMAT_LOST) e.2.2⟩, rest) := by
  induction es with
  | nil => simp [rdSiblings, encGroupEntries]
  | cons e es ih =>
    obtain ⟨h1, h2, h3⟩ := hb e (by simp)
    obtain ⟨v, i, l⟩ := e
    simp only [encGroupEntries, List.length_cons, rdSiblings, List.append_assoc]
    rw [rdU64_leBytes _ _ h1]
    rw [rdWhen_encOpt _ _ _ h2]
    rw [rdWhen_encOpt _ _ _ h3]
    rw [ih (fun e he => hb e (by simp [he]))]
    simp

/-- C5: stat decoding of a `read()` buffer follows `read_format` exactly.
Without `PERF_FORMAT_GROUP` the layout is `value, [time_enabled],
[time_running], [id], [lost]`, each u64 present iff its flag bit is set.
With `PERF_FORMAT_GROUP` the layout is `nr, [time_enabled], [time_running],
{ value, [id], [lost] }[nr]`: the first entry populates the leader's fields
and the remaining `nr - 1` entries become `Stat.siblings` in order. -/
theorem statFromPtrOffset_layout (rf : Nat) (value te tr id lost : Nat)
    (entries : List (Nat × Nat × Nat)) (rest rest' : List Nat)
    (hv : value < 2 ^ 64) (hte : te < 2 ^ 64) (htr : tr < 2 ^ 64)
    (hid : id < 2 ^ 64) (hlost : lost < 2 ^ 64)
    (hnr : entries.length < 2 ^ 64)
    (hes : ∀ e ∈ entries, e.1 < 2 ^ 64 ∧ e.2.1 < 2 ^ 64 ∧ e.2.2 < 2 ^ 64) :
    (rf &&& PERF_FORMAT_GROUP = 0 →
      statFromPtrOffset
          (leBytes 8 value ++
            encOpt (hasFlag rf PERF_FORMAT_TOTAL_TIME_ENABLED) te ++
            encOpt (hasFlag rf PERF_FORMAT_TOTAL_TIME_RUNNING) tr ++
            encOpt (hasFlag rf PERF_FORMAT_ID) id ++
            encOpt (hasFlag rf PERF_FORMAT_LOST) lost ++ rest) rf =
        (⟨value, optOf (hasFlag rf PERF_FORMAT_ID) id,
          optOf (hasFlag rf PERF_FORMAT_TOTAL_TIME_ENABLED) te,
          optOf (hasFlag rf PERF_FORMAT_TOTAL_TIME_RUNNING) tr,
          optOf (hasFlag rf PERF_FORMAT_LOST) lost, []⟩, rest)) ∧
    (rf &&& PERF_FORMAT_GROUP ≠ 0 → ∀ e0 es0, entries = e0 :: es0 →
      statFromPtrOffset
          (leBytes 8 entries.length ++
            encOpt (hasFlag rf PERF_FORMAT_TOTAL_TIME_ENABLED) te ++
            encOpt (hasFlag rf PERF_FORMAT_TOTAL_TIME_RUNNING) tr ++
            encGroupEntries (hasFlag rf PERF_FORMAT_ID)
              (hasFlag rf PERF_FORMAT_LOST) entries ++ rest') rf =
        (⟨e0.1, optOf (hasFlag rf PERF_FORMAT_ID) e0.2.1,
          optOf (hasFlag rf PERF_FORMAT_TOTAL_TIME_ENABLED) te,
          optOf (hasFlag rf PERF_FORMAT_TOTAL_TIME_RUNNING) tr,
          optOf (hasFlag rf PERF_FORMAT_LOST) e0.2.2,
          es0.map fun e =>
            ⟨e.1, optOf (hasFlag rf PERF_FORMAT_ID) e.2.1,
              optOf (hasFlag rf PERF_FORMAT_LOST) e.2.2⟩⟩, rest')) := by
  constructor
  · intro hg
    unfold statFromPtrOffset
    rw [if_pos hg]
    simp only [List.append_assoc]
    rw [rdU64_leBytes _ _ hv, rdWhen_encOpt _ _ _ hte, rdWhen_encOpt _ _ _ htr,
      rdWhen_encOpt _ _ _ hid, rdWhen_encOpt _ _ _ hlost]
  · intro hg e0 es0 he
    unfold statFromPtrOffset
    rw [if_neg hg]
    subst he
    obtain ⟨h1, h2, h3⟩ := hes e0 (by simp)
    obtain ⟨v, i, l⟩ := e0
    simp only [List.append_assoc, encGroupEntries]
    rw [rdU64_leBytes _ _ hnr, rdWhen_encOpt _ _ _ hte, rdWhen_encOpt _ _ _ htr]
    simp only [List.append_assoc]
    rw [rdU64_leBytes _ _ h1, rdWhen_encOpt _ _ _ h2, rdWhen_encOpt _ _ _ h3]
    have hlen : ((v, i, l) :: es0).length - 1 = es0.length := by simp
    rw [hlen, rdSiblings_encGroupEntries rf es0 rest'
      (fun e he => hes e (by simp [he]))]

theorem statFromPtrOffset_layout_witness :
    ((15 : Nat) &&& PERF_FORMAT_GROUP = 0 →
      statFromPtrOffset
          (leBytes 8 7 ++
            encOpt (hasFlag 15 PERF_FORMAT_TOTAL_TIME_ENABLED) 1 ++
            encOpt (hasFlag 15 PERF_FORMAT_TOTAL_TIME_RUNNING) 2 ++
            encOpt (hasFlag 15 PERF_FORMAT_ID) 3 ++
            encOpt (hasFlag 15 PERF_FORMAT_LOST) 4 ++ []) 15 =
        (⟨7, optOf (hasFlag 15 PERF_FORMAT_ID) 3,
          optOf (hasFlag 15 PERF_FORMAT_TOTAL_TIME_ENABLED) 1,
          optOf (hasFlag 15 PERF_FORMAT_TOTAL_TIME_RUNNING) 2,
          optOf (hasFlag 15 PERF_FORMAT_LOST) 4, []⟩, [])) ∧
    ((15 : Nat) &&& PERF_FORMAT_GROUP ≠ 0 →
      ∀ e0 es0, [((5 : Nat), (6 : Nat), (7 : Nat)), (8, 9, 10)] = e0 :: es0 →
      statFromPtrOffset
          (leBytes 8 (List.length [((5 : Nat), (6 : Nat), (7 : Nat)), (8, 9, 10)]) ++
            encOpt (hasFlag 15 PERF_FORMAT_TOTAL_TIME_ENABLED) 1 ++
            encOpt (hasFlag 15 PERF_FORMAT_TOTAL_TIME_RUNNING) 2 ++
            encGroupEntries (hasFlag 15 PERF_FORMAT_ID) (hasFlag 15 PERF_FORMAT_LOST)
              [((5 : Nat), (6 : Nat), (7 : Nat)), (8, 9, 10)] ++ []) 15 =
        (⟨e0.1, optOf (hasFlag 15 PERF_FORMAT_ID) e0.2.1,
          optOf (hasFlag 15 PERF_FORMAT_TOTAL_TIME_ENABLED) 1,
          optOf (hasFlag 15 PERF_FORMAT_TOTAL_TIME_RUNNING) 2,
          optOf (hasFlag 15 PERF_FORMAT_LOST) e0.2.2,
          es0.map fun e =>
            ⟨e.1, optOf (hasFlag 15 PERF_FORMAT_ID) e.2.1,
              optOf (hasFlag 15 PERF_FORMAT_LOST) e.2.2⟩⟩, [])) :=
  statFromPtrOffset_layout 15 7 1 2 3 4 [(5, 6, 7), (8, 9, 10)] [] []
    (by decide) (by decide) (by decide) (by decide) (by decide)
    (by decide) (by decide)

/-- C6 counterexample: with an empty `read_format` (no flags at all) the code
allocates 8 bytes for a single counter (`Counter::new` passes group size 1),
while the claimed formula gives `8 + 8·(1 + 0 + 0) = 16`: the non-group
branch of the claimed formula double-counts the `value` word. -/
theorem readBufSizeClaim_false : readBufSize 1 0 = 8 ∧
    readBufSizeClaim 1 0 = 16 ∧ readBufSize 1 0 ≠ readBufSizeClaim 1 0 := by
  refine ⟨by decide, by decide, by decide⟩

/-- C6 (amended): the read buffer for `nr_members` members is sized
`8 + [time_enabled]·8 + [time_running]·8 + ([group] ? nr_members·8 : 0) +
nr_members·([id]·8 + [lost]·8)` — when `group` is set this agrees with the
claimed `nr_members·(8 + [id]·8 + [lost]·8)` clause, while without `group`
the `id`/`lost` words are counted per member and there is no extra `8·1`
term; and the concrete scenario holds as claimed: after `k` siblings are
added under `PERF_FORMAT_GROUP | PERF_FORMAT_ID` with `time_enabled` and
`time_running`, the leader's read buffer size is `8 + 2·8 + (k+1)·16`. -/
theorem readBufSize_spec (rf gs k : Nat) :
    readBufSize gs rf =
      8 + (if hasFlag rf PERF_FORMAT_TOTAL_TIME_ENABLED then 8 else 0)
        + (if hasFlag rf PERF_FORMAT_TOTAL_TIME_RUNNING then 8 else 0)
        + (if hasFlag rf PERF_FORMAT_GROUP then gs * 8 else 0)
        + gs * ((if hasFlag rf PERF_FORMAT_ID then 8 else 0)
          + (if hasFlag rf PERF_FORMAT_LOST then 8 else 0)) ∧
    (hasFlag rf PERF_FORMAT_GROUP = true →
      readBufSize gs rf = readBufSizeClaim gs rf) ∧
    leaderBufLen rfScenario k = 8 + 2 * 8 + (k + 1) * 16 := by
  refine ⟨?_, ?_, ?_⟩
  · unfold readBufSize
    rcases h1 : hasFlag rf PERF_FORMAT_ID <;>
      rcases h2 : hasFlag rf PERF_FORMAT_LOST <;> simp [Nat.mul_add] <;> ring
  · intro hg
    unfold readBufSize readBufSizeClaim
    rw [hg]
    rcases h1 : hasFlag rf PERF_FORMAT_ID <;>
      rcases h2 : hasFlag rf PERF_FORMAT_LOST <;> simp <;> ring
  · induction k with
    | zero => decide
    | succ k ih =>
      have hv : readBufSize (k + 2) rfScenario = 8 + 2 * 8 + (k + 2) * 16 := by
        unfold readBufSize
        have h1 : hasFlag rfScenario PERF_FORMAT_TOTAL_TIME_ENABLED = true := by decide
        have h2 : hasFlag rfScenario PERF_FORMAT_TOTAL_TIME_RUNNING = true := by decide
        have h3 : hasFlag rfScenario PERF_FORMAT_GROUP = true := by decide
        have h4 : hasFlag rfScenario PERF_FORMAT_ID = true := by decide
        have h5 : hasFlag rfScenario PERF_FORMAT_LOST = false := by decide
        rw [h1, h2, h3, h4, h5]
        simp
        ring
      unfold leaderBufLen
      rw [ih, hv]
      simp only []
      split
      · omega
      · omega

theorem readBufSize_spec_witness :
    readBufSize 3 rfScenario =
      8 + (if hasFlag rfScenario PERF_FORMAT_TOTAL_TIME_ENABLED then 8 else 0)
        + (if hasFlag rfScenario PERF_FORMAT_TOTAL_TIME_RUNNING then 8 else 0)
        + (if hasFlag rfScenario PERF_FORMAT_GROUP then 3 * 8 else 0)
        + 3 * ((if hasFlag rfScenario PERF_FORMAT_ID then 8 else 0)
          + (if hasFlag rfScenario PERF_FORMAT_LOST then 8 else 0)) ∧
    (hasFlag rfScenario PERF_FORMAT_GROUP = true →
      readBufSize 3 rfScenario = readBufSizeClaim 3 rfScenario) ∧
    leaderBufLen rfScenario 2 = 8 + 2 * 8 + (2 + 1) * 16 :=
  readBufSize_spec rfScenario 3 2

/-- C7: `Counter::sampler(exp)` fails with `AlreadyExists` iff the shared
perf fd has more than one owner; otherwise, when `(1 + 2^exp) · page_size`
overflows `usize` it returns an error without requesting any `mmap`, and on
success it maps exactly `(1 + 2^exp) · page_size` bytes at offset 0. -/
theorem counterSampler_spec (strongCount pageSize exp : Nat)
    (hsc : 1 ≤ strongCount) (hps : 0 < pageSize) :
    (counterSampler strongCount pageSize exp = .alreadyExists ↔
      1 < strongCount) ∧
    (strongCount = 1 →
      (USIZE ≤ (1 + 2 ^ exp) * pageSize →
        counterSampler strongCount pageSize exp = .overflow) ∧
      ((1 + 2 ^ exp) * pageSize < USIZE →
        counterSampler strongCount pageSize exp =
          .mapped ((1 + 2 ^ exp) * pageSize) 0)) := by
  unfold counterSampler samplerNew
  have hp : 2 ^ exp + 1 ≤ (2 ^ exp + 1) * pageSize :=
    Nat.le_mul_of_pos_right _ hps
  constructor
  · by_cases h1 : strongCount = 1
    · rw [if_pos h1]
      constructor
      · intro h
        split_ifs at h
      · intro h
        omega
    · rw [if_neg h1]
      exact ⟨fun _ => by omega, fun _ => rfl⟩
  · intro h1
    rw [if_pos h1]
    rw [Nat.add_comm 1 (2 ^ exp)]
    constructor
    · intro hov
      by_cases ha : USIZE ≤ 2 ^ exp
      · rw [if_pos ha]
      · rw [if_neg ha]
        by_cases hb : USIZE ≤ 2 ^ exp + 1
        · rw [if_pos hb]
        · rw [if_neg hb, if_pos hov]
    · intro hlt
      rw [if_neg (by omega), if_neg (by omega), if_neg (by omega)]

theorem counterSampler_spec_witness :
    ((counterSampler 2 4096 3 = .alreadyExists ↔ 1 < 2) ∧
    ((2 : Nat) = 1 →
      (USIZE ≤ (1 + 2 ^ 3) * 4096 → counterSampler 2 4096 3 = .overflow) ∧
      ((1 + 2 ^ 3) * 4096 < USIZE →
        counterSampler 2 4096 3 = .mapped ((1 + 2 ^ 3) * 4096) 0))) ∧
    ((counterSampler 1 4096 3 = .alreadyExists ↔ 1 < 1) ∧
    ((1 : Nat) = 1 →
      (USIZE ≤ (1 + 2 ^ 3) * 4096 → counterSampler 1 4096 3 = .overflow) ∧
      ((1 + 2 ^ 3) * 4096 < USIZE →
        counterSampler 1 4096 3 = .mapped ((1 + 2 ^ 3) * 4096) 0))) :=
  ⟨counterSampler_spec 2 4096 3 (by decide) (by decide),
    counterSampler_spec 1 4096 3 (by decide) (by decide)⟩

/-- C8: `query_bpf(cap)` issues the query ioctl on the prepared
`[ids_len = cap, prog_cnt, ids[cap]]` buffer; on ioctl success it returns
`Ok` with the first `prog_cnt` IDs and no lost count; on `ENOSPC` it still
returns `Ok` (partial success) with the `cap` IDs that fit plus a lost count
of `prog_cnt - cap`; any other errno is propagated unchanged. -/
theorem queryBpf_spec (kernel : List Nat → Except (Nat × List Nat) (List Nat))
    (cap : Nat) (uninit : List Nat) :
    (∀ buf, kernel (cap :: uninit) = .ok buf →
      queryBpf kernel cap uninit = .ok ((buf.drop 2).take (buf.getD 1 0), none)) ∧
    (∀ buf, kernel (cap :: uninit) = .error (ENOSPC, buf) →
      buf.length = 2 + cap → cap ≤ buf.getD 1 0 →
      queryBpf kernel cap uninit = .ok (buf.drop 2, some (buf.getD 1 0 - cap)) ∧
        (buf.drop 2).length = cap ∧
        cap + (buf.getD 1 0 - cap) = buf.getD 1 0) ∧
    (∀ errno buf, kernel (cap :: uninit) = .error (errno, buf) →
      errno ≠ ENOSPC → queryBpf kernel cap uninit = .error errno) := by
  refine ⟨?_, ?_, ?_⟩
  · intro buf hk
    unfold queryBpf
    rw [hk]
  · intro buf hk hlen hcnt
    unfold queryBpf
    rw [hk]
    refine ⟨by simp, by simp [hlen], by omega⟩
  · intro errno buf hk hne
    unfold queryBpf
    rw [hk]
    simp [hne]

theorem queryBpf_spec_witness :
    qbKernel ((3 : Nat) :: [0, 0, 0, 0]) = .error (ENOSPC, [3, 5, 11, 12, 13]) ∧
    (([3, 5, 11, 12, 13] : List Nat).length = 2 + 3 ∧
      3 ≤ ([3, 5, 11, 12, 13] : List Nat).getD 1 0) ∧
    (queryBpf qbKernel 3 [0, 0, 0, 0] =
        .ok (([3, 5, 11, 12, 13] : List Nat).drop 2,
          some (([3, 5, 11, 12, 13] : List Nat).getD 1 0 - 3)) ∧
      (([3, 5, 11, 12, 13] : List Nat).drop 2).length = 3 ∧
      3 + (([3, 5, 11, 12, 13] : List Nat).getD 1 0 - 3) =
        ([3, 5, 11, 12, 13] : List Nat).getD 1 0) :=
  ⟨by rfl, ⟨by decide, by decide⟩,
    (queryBpf_spec qbKernel 3 [0, 0, 0, 0]).2.1 [3, 5, 11, 12, 13]
      (by rfl) (by decide) (by decide)⟩

theorem hasFlag_testBit (x k : Nat) : hasFlag x (2 ^ k) = x.testBit k := by
  unfold hasFlag
  rw [Nat.and_two_pow]
  rcases h : x.testBit k
  · simp
  · simp [Nat.two_pow_pos]

theorem testBit_cond (b : Bool) (v k : Nat) :
    (if b then v else 0).testBit k = (b && v.testBit k) := by
  cases b <;> simp

theorem testBit_pow_pow (i j : Nat) : Nat.testBit (2 ^ i) j = (i == j) := by
  rcases Decidable.eq_or_ne i j with h | h
  · subst h
    simp [Nat.testBit_two_pow_self]
  · simp [Nat.testBit_two_pow_of_ne h, h]

theorem chkAll_error_of_any (l : List Bool) (h : l.any id = true) :
    chkAll l = .error () := by
  induction l with
  | nil => simp at h
  | cons b bs ih =>
    unfold chkAll
    rcases hb : b
    · rw [if_neg (by simp)]
      apply ih
      simpa [hb] using h
    · simp

/-- C4: if any enabled option requires a kernel feature newer than the
compile-time-selected minimum kernel version (any entry of the assembler's
gate-check list fires), attribute assembly returns the typed `Unsupported`
error, `Counter::new` surfaces that error whatever `perf_event_open` would
do, and the syscall is never issued (no file descriptor is created). -/
theorem attrFrom_unsupported (f : Features) (e : EventConfig) (o : Opts)
    (h : (gateChecks f e o).any id = true) :
    attrFrom f e o = .error () ∧
    (∀ openF, counterNew openF f e o = .error .unsupported) ∧
    counterNewIssuesOpen f e o = false := by
  have herr : attrFrom f e o = .error () := by
    unfold attrFrom
    rw [chkAll_error_of_any _ h]
    rfl
  refine ⟨herr, fun openF => ?_, ?_⟩
  · unfold counterNew
    rw [herr]
  · unfold counterNewIssuesOpen
    rw [herr]

theorem attrFrom_unsupported_witness :
    (gateChecks featuresNo613 evZero optsPauseAux).any id = true ∧
    (attrFrom featuresNo613 evZero optsPauseAux = .error () ∧
    (∀ openF, counterNew openF featuresNo613 evZero optsPauseAux =
      .error .unsupported) ∧
    counterNewIssuesOpen featuresNo613 evZero optsPauseAux = false) :=
  ⟨by decide, attrFrom_unsupported featuresNo613 evZero optsPauseAux (by decide)⟩

theorem recordIdFromPtr_presence (bs : List Nat) (st : Nat) :
    ((recordIdFromPtr bs st).task.isSome = hasFlag st PERF_SAMPLE_TID) ∧
    ((recordIdFromPtr bs st).time.isSome = hasFlag st PERF_SAMPLE_TIME) ∧
    ((recordIdFromPtr bs st).id.isSome = hasFlag st PERF_SAMPLE_ID) ∧
    ((recordIdFromPtr bs st).stream_id.isSome = hasFlag st PERF_SAMPLE_STREAM_ID) ∧
    ((recordIdFromPtr bs st).cpu.isSome = hasFlag st PERF_SAMPLE_CPU) := by
  rcases h1 : hasFlag st PERF_SAMPLE_TID <;>
    rcases h2 : hasFlag st PERF_SAMPLE_TIME <;>
    rcases h3 : hasFlag st PERF_SAMPLE_ID <;>
    rcases h4 : hasFlag st PERF_SAMPLE_STREAM_ID <;>
    rcases h5 : hasFlag st PERF_SAMPLE_CPU <;>
    simp [recordIdFromPtr, h1, h2, h3, h4, h5, rdWhen]

/-- C9: round-trip of the flag sets through attribute assembly.  With every
gate enabled, assembly always succeeds and produces `attrRecord`; the
produced `read_format` decodes back to exactly the original `stat_format`
flags (each flag iff its `PERF_FORMAT_*` bit), and a `sample_id` trailer
decoded with the produced `sample_type` carries exactly the
`record_id_format` fields (each present iff the flag was set), for every
byte buffer. -/
theorem attr_roundTrip (e : EventConfig) (o : Opts) :
    attrFrom allFeatures e o = .ok (attrRecord e o) ∧
    ((attrRecord e o).read_format = o.stat_format.asReadFormat ∧
      hasFlag o.stat_format.asReadFormat PERF_FORMAT_ID = o.stat_format.id ∧
      hasFlag o.stat_format.asReadFormat PERF_FORMAT_TOTAL_TIME_ENABLED =
        o.stat_format.time_enabled ∧
      hasFlag o.stat_format.asReadFormat PERF_FORMAT_TOTAL_TIME_RUNNING =
        o.stat_format.time_running ∧
      hasFlag o.stat_format.asReadFormat PERF_FORMAT_LOST =
        o.stat_format.lost_records ∧
      hasFlag o.stat_format.asReadFormat PERF_FORMAT_GROUP =
        o.stat_format.siblings) ∧
    ((attrRecord e o).sample_type = sampleTypeOf o ∧
      ∀ bs,
        ((recordIdFromPtr bs (sampleTypeOf o)).task.isSome =
          o.record_id_format.task) ∧
        ((recordIdFromPtr bs (sampleTypeOf o)).time.isSome =
          o.record_id_format.time) ∧
        ((recordIdFromPtr bs (sampleTypeOf o)).id.isSome =
          o.record_id_format.id) ∧
        ((recordIdFromPtr bs (sampleTypeOf o)).stream_id.isSome =
          o.record_id_format.stream_id) ∧
        ((recordIdFromPtr bs (sampleTypeOf o)).cpu.isSome =
          o.record_id_format.cpu)) := by
  refine ⟨?_, ⟨rfl, ?_, ?_, ?_, ?_, ?_⟩, rfl, ?_⟩
  · unfold attrFrom
    have hgc : gateChecks allFeatures e o = [false, false, false, false, false,
        false, false, false, false, false, false, false, false] := by
      simp [gateChecks, allFeatures]
    rw [hgc]
    rfl
  · rw [show PERF_FORMAT_ID = 2 ^ 2 from rfl, hasFlag_testBit]
    unfold StatFormat.asReadFormat
    simp only [Nat.testBit_lor, testBit_cond, PERF_FORMAT_ID,
      PERF_FORMAT_TOTAL_TIME_ENABLED, PERF_FORMAT_TOTAL_TIME_RUNNING,
      PERF_FORMAT_LOST, PERF_FORMAT_GROUP, testBit_pow_pow]
    simp
  · rw [show PERF_FORMAT_TOTAL_TIME_ENABLED = 2 ^ 0 from rfl, hasFlag_testBit]
    unfold StatFormat.asReadFormat
    simp only [Nat.testBit_lor, testBit_cond, PERF_FORMAT_ID,
      PERF_FORMAT_TOTAL_TIME_ENABLED, PERF_FORMAT_TOTAL_TIME_RUNNING,
      PERF_FORMAT_LOST, PERF_FORMAT_GROUP, testBit_pow_pow]
    simp
  · rw [show PERF_FORMAT_TOTAL_TIME_RUNNING = 2 ^ 1 from rfl, hasFlag_testBit]
    unfold StatFormat.asReadFormat
    simp only [Nat.testBit_lor, testBit_cond, PERF_FORMAT_ID,
      PERF_FORMAT_TOTAL_TIME_ENABLED, PERF_FORMAT_TOTAL_TIME_RUNNING,
      PERF_FORMAT_LOST, PERF_FORMAT_GROUP, testBit_pow_pow]
    simp
  · rw [show PERF_FORMAT_LOST = 2 ^ 4 from rfl, hasFlag_testBit]
    unfold StatFormat.asReadFormat
    simp only [Nat.testBit_lor, testBit_cond, PERF_FORMAT_ID,
      PERF_FORMAT_TOTAL_TIME_ENABLED, PERF_FORMAT_TOTAL_TIME_RUNNING,
      PERF_FORMAT_LOST, PERF_FORMAT_GROUP, testBit_pow_pow]
    simp
  · rw [show PERF_FORMAT_GROUP = 2 ^ 3 from rfl, hasFlag_testBit]
    unfold StatFormat.asReadFormat
    simp only [Nat.testBit_lor, testBit_cond, PERF_FORMAT_ID,
      PERF_FORMAT_TOTAL_TIME_ENABLED, PERF_FORMAT_TOTAL_TIME_RUNNING,
      PERF_FORMAT_LOST, PERF_FORMAT_GROUP, testBit_pow_pow]
    simp
  · intro bs
    obtain ⟨p1, p2, p3, p4, p5⟩ := recordIdFromPtr_presence bs (sampleTypeOf o)
    rw [p1, p2, p3, p4, p5]
    rw [show PERF_SAMPLE_TID = 2 ^ 1 from rfl, show PERF_SAMPLE_TIME = 2 ^ 2 from rfl,
      show PERF_SAMPLE_ID = 2 ^ 6 from rfl, show PERF_SAMPLE_STREAM_ID = 2 ^ 9 from rfl,
      show PERF_SAMPLE_CPU = 2 ^ 7 from rfl, hasFlag_testBit, hasFlag_testBit,
      hasFlag_testBit, hasFlag_testBit, hasFlag_testBit]
    unfold sampleTypeOf
    rcases hw : o.sample_format.weight with _ | w
    · refine ⟨?_, ?_, ?_, ?_, ?_⟩ <;>
        · simp only [hw, Nat.testBit_lor, testBit_cond, PERF_SAMPLE_IP,
            PERF_SAMPLE_TID, PERF_SAMPLE_TIME, PERF_SAMPLE_ADDR, PERF_SAMPLE_READ,
            PERF_SAMPLE_CALLCHAIN, PERF_SAMPLE_ID, PERF_SAMPLE_CPU,
            PERF_SAMPLE_PERIOD, PERF_SAMPLE_STREAM_ID, PERF_SAMPLE_RAW,
            PERF_SAMPLE_BRANCH_STACK, PERF_SAMPLE_REGS_USER, PERF_SAMPLE_STACK_USER,
            PERF_SAMPLE_WEIGHT, PERF_SAMPLE_DATA_SRC, PERF_SAMPLE_TRANSACTION,
            PERF_SAMPLE_REGS_INTR, PERF_SAMPLE_PHYS_ADDR, PERF_SAMPLE_AUX,
            PERF_SAMPLE_CGROUP, PERF_SAMPLE_DATA_PAGE_SIZE,
            PERF_SAMPLE_CODE_PAGE_SIZE, PERF_SAMPLE_WEIGHT_STRUCT, testBit_pow_pow]
          simp
    · rcases w <;>
        · refine ⟨?_, ?_, ?_, ?_, ?_⟩ <;>
            · simp only [hw, Nat.testBit_lor, testBit_cond, PERF_SAMPLE_IP,
                PERF_SAMPLE_TID, PERF_SAMPLE_TIME, PERF_SAMPLE_ADDR, PERF_SAMPLE_READ,
                PERF_SAMPLE_CALLCHAIN, PERF_SAMPLE_ID, PERF_SAMPLE_CPU,
                PERF_SAMPLE_PERIOD, PERF_SAMPLE_STREAM_ID, PERF_SAMPLE_RAW,
                PERF_SAMPLE_BRANCH_STACK, PERF_SAMPLE_REGS_USER, PERF_SAMPLE_STACK_USER,
                PERF_SAMPLE_WEIGHT, PERF_SAMPLE_DATA_SRC, PERF_SAMPLE_TRANSACTION,
                PERF_SAMPLE_REGS_INTR, PERF_SAMPLE_PHYS_ADDR, PERF_SAMPLE_AUX,
                PERF_SAMPLE_CGROUP, PERF_SAMPLE_DATA_PAGE_SIZE,
                PERF_SAMPLE_CODE_PAGE_SIZE, PERF_SAMPLE_WEIGHT_STRUCT, testBit_pow_pow]
              simp

theorem dispatchRecord_unknown (p : ParserCfg) (bytes : List Nat)
    (ty misc : Nat) (r : Rd) (sia : Option Nat)
    (h : ty ∉ knownRecordTypes) :
    dispatchRecord p bytes ty misc r sia = .ok (.Unknown bytes) := by
  simp only [knownRecordTypes, List.mem_cons, List.not_mem_nil, or_false,
    not_or] at h
  obtain ⟨h1, h2, h3, h4, h5, h6, h7, h8, h9, h10, h11, h12, h13, h14, h15,
    h16, h17, h18, h19, h20, h21⟩ := h
  unfold dispatchRecord
  rw [if_neg h1, if_neg h2, if_neg h3, if_neg h4, if_neg h5, if_neg h6,
    if_neg h7, if_neg h8, if_neg h9, if_neg h10, if_neg h11, if_neg h12,
    if_neg h13, if_neg h14, if_neg h15, if_neg h16, if_neg h17, if_neg h18,
    if_neg h19, if_neg h20, if_neg h21]
  rfl

theorem dispatchRecord_ok_of_ne_sample (p : ParserCfg) (bytes : List Nat)
    (ty misc : Nat) (r : Rd) (sia : Option Nat)
    (h : ty ≠ PERF_RECORD_SAMPLE) :
    ∃ rec, dispatchRecord p bytes ty misc r sia = .ok rec := by
  unfold dispatchRecord
  rw [if_neg h]
  by_cases c2 : ty = PERF_RECORD_MMAP
  · rw [if_pos c2]
    exact ⟨_, rfl⟩
  rw [if_neg c2]
  by_cases c3 : ty = PERF_RECORD_MMAP2
  · rw [if_pos c3]
    exact ⟨_, rfl⟩
  rw [if_neg c3]
  by_cases c4 : ty = PERF_RECORD_READ
  · rw [if_pos c4]
    exact ⟨_, rfl⟩
  rw [if_neg c4]
  by_cases c5 : ty = PERF_RECORD_CGROUP
  · rw [if_pos c5]
    exact ⟨_, rfl⟩
  rw [if_neg c5]
  by_cases c6 : ty = PERF_RECORD_KSYMBOL
  · rw [if_pos c6]
    exact ⟨_, rfl⟩
  rw [if_neg c6]
  by_cases c7 : ty = PERF_RECORD_TEXT_POKE
  · rw [if_pos c7]
    exact ⟨_, rfl⟩
  rw [if_neg c7]
  by_cases c8 : ty = PERF_RECORD_BPF_EVENT
  · rw [if_pos c8]
    exact ⟨_, rfl⟩
  rw [if_neg c8]
  by_cases c9 : ty = PERF_RECORD_SWITCH
  · rw [if_pos c9]
    exact ⟨_, rfl⟩
  rw [if_neg c9]
  by_cases c10 : ty = PERF_RECORD_SWITCH_CPU_WIDE
  · rw [if_pos c10]
    exact ⟨_, rfl⟩
  rw [if_neg c10]
  by_cases c11 : ty = PERF_RECORD_NAMESPACES
  · rw [if_pos c11]
    exact ⟨_, rfl⟩
  rw [if_neg c11]
  by_cases c12 : ty = PERF_RECORD_ITRACE_START
  · rw [if_pos c12]
    exact ⟨_, rfl⟩
  rw [if_neg c12]
  by_cases c13 : ty = PERF_RECORD_AUX
  · rw [if_pos c13]
    exact ⟨_, rfl⟩
  rw [if_neg c13]
  by_cases c14 : ty = PERF_RECORD_AUX_OUTPUT_HW_ID
  · rw [if_pos c14]
    exact ⟨_, rfl⟩
  rw [if_neg c14]
  by_cases c15 : ty = PERF_RECORD_COMM
  · rw [if_pos c15]
    exact ⟨_, rfl⟩
  rw [if_neg c15]
  by_cases c16 : ty = PERF_RECORD_EXIT
  · rw [if_pos c16]
    exact ⟨_, rfl⟩
  rw [if_neg c16]
  by_cases c17 : ty = PERF_RECORD_FORK
  · rw [if_pos c17]
    exact ⟨_, rfl⟩
  rw [if_neg c17]
  by_cases c18 : ty = PERF_RECORD_THROTTLE
  · rw [if_pos c18]
    exact ⟨_, rfl⟩
  rw [if_neg c18]
  by_cases c19 : ty = PERF_RECORD_UNTHROTTLE
  · rw [if_pos c19]
    exact ⟨_, rfl⟩
  rw [if_neg c19]
  by_cases c20 : ty = PERF_RECORD_LOST
  · rw [if_pos c20]
    exact ⟨_, rfl⟩
  rw [if_neg c20]
  by_cases c21 : ty = PERF_RECORD_LOST_SAMPLES
  · rw [if_pos c21]
    exact ⟨_, rfl⟩
  rw [if_neg c21]
  exact ⟨_, rfl⟩

/-- C3 counterexample: the claim "parsing never panics" is false — on a
sample record carrying a register-ABI tag outside `{NONE, 32, 64}` the
parser hits `parse_regs`'s `unimplemented!()` and panics (modelled as the
error outcome). -/
theorem recordParse_panics :
    parseRecordBytes regsPanicCfg regsPanicBytes = .error () := by rfl

/-- C3 (amended): parsing is total except for the register-ABI tag.  In
detail: (1) a record whose header type matches no known `PERF_RECORD_*`
constant is returned as `Unknown` carrying the complete raw bytes, with the
cpumode still decoded from `misc`; (2) an unmatched cpumode decodes to the
catch-all `Priv::Unknown`; (3) in an LBR entry, an unmatched extended
branch type, and (4) an unmatched branch privilege, decode to the catch-all
`Unknown` variants; (5) an unmatched memory hierarchy level and (6) an
unmatched hop level decode to `Unknown`; (7) a parse error (panic) can only
arise from a `PERF_RECORD_SAMPLE` record; and (8) `parse_regs` truncates
the 64-bit ABI word to its low 32 bits (`as u32`), returns no body when the
truncated tag is `NONE`, and panics exactly on truncated tags outside
`{NONE, 32, 64}` — contrary to the claim, which expected a catch-all
there. -/
theorem recordParse_amended :
    (∀ (p : ParserCfg) (bytes : List Nat),
      leVal (bytes.take 4) ∉ knownRecordTypes →
      parseRecordBytes p bytes =
        .ok (PrivLevel.fromMisc (leVal ((bytes.drop 4).take 2)),
          .Unknown bytes)) ∧
    (∀ misc : Nat, 6 ≤ misc &&& PERF_RECORD_MISC_CPUMODE_MASK →
      PrivLevel.fromMisc misc = .Unknown) ∧
    (∀ (l : Nat × Nat × Nat) (c : Option Nat),
      (l.2.2 >>> 20) &&& 15 = PERF_BR_EXTEND_ABI →
      8 ≤ (l.2.2 >>> 26) &&& 15 →
      (toEntry l c).branch_type = .Unknown) ∧
    (∀ (l : Nat × Nat × Nat) (c : Option Nat),
      4 ≤ (l.2.2 >>> 30) &&& 7 →
      (toEntry l c).branch_priv = .Unknown) ∧
    (∀ r : Rd,
      (leVal (r.bs.take 8) >>> PERF_MEM_LVLNUM_SHIFT) &&& 15 = 0 ∨
        (leVal (r.bs.take 8) >>> PERF_MEM_LVLNUM_SHIFT) &&& 15 = 7 →
      (parseDataSource r).1.level2 = .Unknown) ∧
    (∀ r : Rd,
      (leVal (r.bs.take 8) >>> PERF_MEM_HOPS_SHIFT) &&& 7 = 0 ∨
        5 ≤ (leVal (r.bs.take 8) >>> PERF_MEM_HOPS_SHIFT) &&& 7 →
      (parseDataSource r).1.hops = .Unknown) ∧
    (∀ (p : ParserCfg) (bytes : List Nat),
      parseRecordBytes p bytes = .error () →
      leVal (bytes.take 4) = PERF_RECORD_SAMPLE) ∧
    (∀ (len : Nat) (r : Rd),
      (leVal (r.bs.take 8) % 2 ^ 32 = PERF_SAMPLE_REGS_ABI_NONE →
        parseRegs len r = .ok (none, ⟨r.bs.drop 8, r.pos + 8⟩)) ∧
      (leVal (r.bs.take 8) % 2 ^ 32 ≠ PERF_SAMPLE_REGS_ABI_NONE →
        leVal (r.bs.take 8) % 2 ^ 32 ≠ PERF_SAMPLE_REGS_ABI_32 →
        leVal (r.bs.take 8) % 2 ^ 32 ≠ PERF_SAMPLE_REGS_ABI_64 →
        parseRegs len r = .error ())) := by
  refine ⟨?_, ?_, ?_, ?_, ?_, ?_, ?_, ?_⟩
  · intro p bytes h
    unfold parseRecordBytes
    dsimp only [Rd.u32, Rd.u16, Rd.skip]
    rw [dispatchRecord_unknown _ _ _ _ _ _ h]
    rfl
  · intro misc h
    unfold PrivLevel.fromMisc
    simp only [PERF_RECORD_MISC_USER, PERF_RECORD_MISC_KERNEL,
      PERF_RECORD_MISC_HYPERVISOR, PERF_RECORD_MISC_GUEST_USER,
      PERF_RECORD_MISC_GUEST_KERNEL]
    repeat rw [if_neg (by omega)]
  · intro l c h1 h2
    unfold toEntry decodeBranchType decodeNewType
    simp only [PERF_BR_UNKNOWN, PERF_BR_COND, PERF_BR_UNCOND, PERF_BR_IND,
      PERF_BR_CALL, PERF_BR_IND_CALL, PERF_BR_RET, PERF_BR_SYSCALL,
      PERF_BR_SYSRET, PERF_BR_COND_CALL, PERF_BR_COND_RET, PERF_BR_ERET,
      PERF_BR_IRQ, PERF_BR_SERROR, PERF_BR_NO_TX, PERF_BR_EXTEND_ABI,
      PERF_BR_NEW_FAULT_DATA, PERF_BR_NEW_FAULT_ALGN, PERF_BR_NEW_FAULT_INST,
      PERF_BR_NEW_ARCH_1, PERF_BR_NEW_ARCH_2, PERF_BR_NEW_ARCH_3,
      PERF_BR_NEW_ARCH_4, PERF_BR_NEW_ARCH_5] at *
    repeat rw [if_neg (by omega)]
    rw [if_pos h1]
    repeat rw [if_neg (by omega)]
  · intro l c h
    unfold toEntry decodeBranchPriv
    simp only [PERF_BR_PRIV_UNKNOWN, PERF_BR_PRIV_USER, PERF_BR_PRIV_KERNEL,
      PERF_BR_PRIV_HV]
    repeat rw [if_neg (by omega)]
  · intro r h
    unfold parseDataSource decodeMemLevel2
    simp only [Rd.u64, PERF_MEM_LVLNUM_SHIFT, PERF_MEM_LVLNUM_L1,
      PERF_MEM_LVLNUM_L2, PERF_MEM_LVLNUM_L3, PERF_MEM_LVLNUM_L4,
      PERF_MEM_LVLNUM_L2_MHB, PERF_MEM_LVLNUM_MSC, PERF_MEM_LVLNUM_UNC,
      PERF_MEM_LVLNUM_CXL, PERF_MEM_LVLNUM_IO, PERF_MEM_LVLNUM_ANY_CACHE,
      PERF_MEM_LVLNUM_LFB, PERF_MEM_LVLNUM_RAM, PERF_MEM_LVLNUM_PMEM,
      PERF_MEM_LVLNUM_NA] at *
    repeat rw [if_neg (by omega)]
  · intro r h
    unfold parseDataSource decodeMemHop
    simp only [Rd.u64, PERF_MEM_HOPS_SHIFT, PERF_MEM_HOPS_0, PERF_MEM_HOPS_1,
      PERF_MEM_HOPS_2, PERF_MEM_HOPS_3] at *
    repeat rw [if_neg (by omega)]
  · intro p bytes he
    by_cases hty : leVal (bytes.take 4) = PERF_RECORD_SAMPLE
    · exact hty
    · exfalso
      unfold parseRecordBytes at he
      dsimp only [Rd.u32, Rd.u16, Rd.skip] at he
      obtain ⟨rec, hrec⟩ := dispatchRecord_ok_of_ne_sample p bytes _ _ _ _ hty
      rw [hrec] at he
      exact Except.noConfusion he
  · intro len r
    constructor
    · intro h
      unfold parseRegs
      simp only [Rd.u64]
      rw [if_pos h]
    · intro h0 h1 h2
      unfold parseRegs
      simp only [Rd.u64]
      rw [if_neg h0, if_neg h1, if_neg h2]

theorem recordParse_amended_witness :
    (parseRecordBytes plainCfg unknownTyBytes =
      .ok (PrivLevel.fromMisc (leVal ((unknownTyBytes.drop 4).take 2)),
        .Unknown unknownTyBytes)) ∧
    PrivLevel.fromMisc 6 = .Unknown ∧
    (toEntry (0, 0, 552599552) none).branch_type = .Unknown ∧
    (toEntry (0, 0, 4294967296) none).branch_priv = .Unknown ∧
    (parseDataSource ⟨leBytes 8 0, 0⟩).1.level2 = .Unknown ∧
    (parseDataSource ⟨leBytes 8 0, 0⟩).1.hops = .Unknown ∧
    leVal (regsPanicBytes.take 4) = PERF_RECORD_SAMPLE ∧
    parseRegs 0 ⟨leBytes 8 0, 0⟩ = .ok (none, ⟨(leBytes 8 0).drop 8, 0 + 8⟩) ∧
    parseRegs 0 ⟨leBytes 8 3, 0⟩ = .error () ∧
    parseRegs 0 ⟨leBytes 8 (2 ^ 32), 0⟩ =
      .ok (none, ⟨(leBytes 8 (2 ^ 32)).drop 8, 0 + 8⟩) :=
  ⟨recordParse_amended.1 plainCfg unknownTyBytes (by decide),
    recordParse_amended.2.1 6 (by decide),
    recordParse_amended.2.2.1 (0, 0, 552599552) none (by decide) (by decide),
    recordParse_amended.2.2.2.1 (0, 0, 4294967296) none (by decide),
    recordParse_amended.2.2.2.2.1 ⟨leBytes 8 0, 0⟩ (Or.inl (by decide)),
    recordParse_amended.2.2.2.2.2.1 ⟨leBytes 8 0, 0⟩ (Or.inl (by decide)),
    recordParse_amended.2.2.2.2.2.2.1 regsPanicCfg regsPanicBytes (by rfl),
    (recordParse_amended.2.2.2.2.2.2.2 0 ⟨leBytes 8 0, 0⟩).1 (by decide),
    (recordParse_amended.2.2.2.2.2.2.2 0 ⟨leBytes 8 3, 0⟩).2 (by decide)
      (by decide) (by decide),
    (recordParse_amended.2.2.2.2.2.2.2 0 ⟨leBytes 8 (2 ^ 32), 0⟩).1 (by decide)⟩

theorem rdU64_le (v : Nat) (rest : List Nat) (p : Nat) (h : v < 2 ^ 64) :
    Rd.u64 ⟨leBytes 8 v ++ rest, p⟩ = (v, ⟨rest, p + 8⟩) := by
  unfold Rd.u64
  have hl : (leBytes 8 v).length = 8 := leBytes_length ..
  rw [List.take_left' hl, List.drop_left' hl,
    leVal_leBytes 8 v (by norm_num at h ⊢; omega)]

theorem rdBytes_exact (xs rest : List Nat) (p : Nat) :
    Rd.bytes xs.length ⟨xs ++ rest, p⟩ = (xs, ⟨rest, p + xs.length⟩) := by
  unfold Rd.bytes
  rw [List.take_left' rfl, List.drop_left' rfl]

theorem exbind_ok {α β : Type} (x : α) (k : α → Except Unit β) :
    ((Except.ok x : Except Unit α) >>= k) = k x := rfl

theorem exbind_err {α β : Type} (k : α → Except Unit β) :
    ((Except.error () : Except Unit α) >>= k) = .error () := rfl

theorem expure {α : Type} (x : α) : (pure x : Except Unit α) = .ok x := rfl

theorem ite_ff {α : Sort _} (a b : α) : (if false = true then a else b) = b := by
  simp

theorem ite_tt {α : Sort _} (a b : α) : (if true = true then a else b) = a := by
  simp

theorem rdOptU64_ff (r : Rd) : rdOptU64 false r = (none, r) := rfl

theorem rdCodeAddr_ff (misc : Nat) (r : Rd) : rdCodeAddr false misc r = (none, r) := rfl

theorem rdTask_ff (r : Rd) : rdTask false r = (none, r) := rfl

theorem rdCpu_ff (r : Rd) : rdCpu false r = (none, r) := rfl

theorem rdStatOpt_ff (rf : Nat) (r : Rd) : rdStatOpt false rf r = (none, r) := rfl

theorem rdCallChain_ff (r : Rd) : rdCallChain false r = (none, r) := rfl

theorem rdRaw_ff (r : Rd) : rdRaw false r = (none, r) := rfl

theorem rdLbr_tt (bst : Nat) (r : Rd) : rdLbr true bst r = parseLbr bst r := rfl

theorem rdRegs_ff (a : Nat) (r : Rd) : rdRegs false a r = .ok (none, r) := rfl

theorem rdWeight_ff (r : Rd) : rdWeight false false r = (none, r) := rfl

theorem rdDataSource_ff (r : Rd) : rdDataSource false r = (none, r) := rfl

theorem rdTxn_ff (r : Rd) : rdTxn false r = (none, r) := rfl

theorem rdAux_ff (r : Rd) : rdAux false r = (none, r) := rfl

theorem rdUserStack_tt (dump : List Nat) (dyn : Nat) (rest : List Nat) (p : Nat)
    (hpos : 0 < dump.length) (hlen : dump.length < 2 ^ 64) (hdyn : dyn < 2 ^ 64)
    (hdl : dyn ≤ dump.length) :
    rdUserStack true ⟨leBytes 8 dump.length ++ (dump ++ (leBytes 8 dyn ++ rest)), p⟩ =
      .ok (some (dump.take dyn), ⟨rest, p + 8 + dump.length + 8⟩) := by
  unfold rdUserStack
  rw [ite_tt]
  rw [rdU64_le dump.length _ _ hlen]
  dsimp only []
  rw [rdBytes_exact dump _ _]
  dsimp only []
  rw [if_pos hpos]
  rw [rdU64_le dyn _ _ hdyn]
  dsimp only []
  rw [if_pos hdl]

theorem rdUserStack_tt_err (dump : List Nat) (dyn : Nat) (rest : List Nat) (p : Nat)
    (hpos : 0 < dump.length) (hlen : dump.length < 2 ^ 64) (hdyn : dyn < 2 ^ 64)
    (hgt : dump.length < dyn) :
    rdUserStack true ⟨leBytes 8 dump.length ++ (dump ++ (leBytes 8 dyn ++ rest)), p⟩ =
      .error () := by
  unfold rdUserStack
  rw [ite_tt]
  rw [rdU64_le dump.length _ _ hlen]
  dsimp only []
  rw [rdBytes_exact dump _ _]
  dsimp only []
  rw [if_pos hpos]
  rw [rdU64_le dyn _ _ hdyn]
  dsimp only []
  rw [if_neg (by omega)]

theorem rdUserStack_tt0 (rest : List Nat) (p : Nat) :
    rdUserStack true ⟨leBytes 8 0 ++ rest, p⟩ = .ok (some [], ⟨rest, p + 8⟩) := by
  unfold rdUserStack
  rw [ite_tt]
  rw [rdU64_le 0 _ _ (by norm_num)]
  dsimp only []
  rw [if_neg (Nat.lt_irrefl 0)]
  simp [Rd.bytes]

/-- C10: presence and extent of `Sample` fields depend on the record's
content, not only on the configured bitmask.  (1) Whatever the branch
configuration and the remaining bytes, an LBR blob whose kernel-written
entry count is zero parses to no LBR data; consequently (2) with
`PERF_SAMPLE_BRANCH_STACK | PERF_SAMPLE_STACK_USER` configured, a record
carrying a zero LBR entry count and a user-stack dump of `size` bytes with
trailing `dyn_size ≤ size` (as the kernel writes it) yields `lbr = none`
and a `user_stack` holding exactly the first `dyn_size` bytes of the dump
(the rest of the static dump is discarded); (3) when the dumped size is
zero there is no `dyn_size` word and the `user_stack` field is the empty
vector; and (4) on a malformed record whose `dyn_size` exceeds the dumped
size the slice `bytes[..dyn_len]` panics, modelled as the error outcome. -/
theorem sample_content_dependent :
    (∀ (bst : Nat) (r : Rd), leVal (r.bs.take 8) = 0 →
      (parseLbr bst r).1 = none) ∧
    (∀ (dump : List Nat) (dyn : Nat) (rest : List Nat) (misc rf ur ir bst : Nat),
      0 < dump.length → dump.length < 2 ^ 64 → dyn < 2 ^ 64 → dyn ≤ dump.length →
      (sampleFromPtr
          ⟨leBytes 8 0 ++ (leBytes 8 dump.length ++ (dump ++ (leBytes 8 dyn ++ rest))), 8⟩
          misc rf stLbrStack ur ir bst).map (fun s => (s.lbr, s.user_stack)) =
        .ok (none, some (dump.take dyn))) ∧
    (∀ (rest : List Nat) (misc rf ur ir bst : Nat),
      (sampleFromPtr ⟨leBytes 8 0 ++ (leBytes 8 0 ++ rest), 8⟩
          misc rf stLbrStack ur ir bst).map (fun s => (s.lbr, s.user_stack)) =
        .ok (none, some [])) ∧
    (∀ (dump : List Nat) (dyn : Nat) (rest : List Nat) (misc rf ur ir bst : Nat),
      0 < dump.length → dump.length < 2 ^ 64 → dyn < 2 ^ 64 → dump.length < dyn →
      sampleFromPtr
          ⟨leBytes 8 0 ++ (leBytes 8 dump.length ++ (dump ++ (leBytes 8 dyn ++ rest))), 8⟩
          misc rf stLbrStack ur ir bst = .error ()) := by
  have hLbr : ∀ (bst : Nat) (r : Rd), leVal (r.bs.take 8) = 0 →
      parseLbr bst r = (none, ⟨r.bs.drop 8, r.pos + 8⟩) := by
    intro bst r h
    unfold parseLbr
    simp only [Rd.u64, h, if_true]
  have hLbr0 : ∀ (bst : Nat) (X : List Nat) (p : Nat),
      parseLbr bst ⟨leBytes 8 0 ++ X, p⟩ = (none, ⟨X, p + 8⟩) := by
    intro bst X p
    rw [hLbr bst ⟨leBytes 8 0 ++ X, p⟩ (by
      rw [List.take_left' (leBytes_length 8 0)]
      exact leVal_leBytes 8 0 (by norm_num))]
    rw [List.drop_left' (leBytes_length 8 0)]
  have h1 : hasFlag stLbrStack PERF_SAMPLE_IP = false := by decide
  have h2 : hasFlag stLbrStack PERF_SAMPLE_TID = false := by decide
  have h3 : hasFlag stLbrStack PERF_SAMPLE_TIME = false := by decide
  have h4 : hasFlag stLbrStack PERF_SAMPLE_ADDR = false := by decide
  have h5 : hasFlag stLbrStack PERF_SAMPLE_ID = false := by decide
  have h6 : hasFlag stLbrStack PERF_SAMPLE_STREAM_ID = false := by decide
  have h7 : hasFlag stLbrStack PERF_SAMPLE_CPU = false := by decide
  have h8 : hasFlag stLbrStack PERF_SAMPLE_PERIOD = false := by decide
  have h9 : hasFlag stLbrStack PERF_SAMPLE_READ = false := by decide
  have h10 : hasFlag stLbrStack PERF_SAMPLE_CALLCHAIN = false := by decide
  have h11 : hasFlag stLbrStack PERF_SAMPLE_RAW = false := by decide
  have h12 : hasFlag stLbrStack PERF_SAMPLE_BRANCH_STACK = true := by decide
  have h13 : hasFlag stLbrStack PERF_SAMPLE_REGS_USER = false := by decide
  have h14 : hasFlag stLbrStack PERF_SAMPLE_STACK_USER = true := by decide
  have h15 : hasFlag stLbrStack PERF_SAMPLE_WEIGHT = false := by decide
  have h16 : hasFlag stLbrStack PERF_SAMPLE_WEIGHT_STRUCT = false := by decide
  have h17 : hasFlag stLbrStack PERF_SAMPLE_DATA_SRC = false := by decide
  have h18 : hasFlag stLbrStack PERF_SAMPLE_TRANSACTION = false := by decide
  have h19 : hasFlag stLbrStack PERF_SAMPLE_REGS_INTR = false := by decide
  have h20 : hasFlag stLbrStack PERF_SAMPLE_PHYS_ADDR = false := by decide
  have h21 : hasFlag stLbrStack PERF_SAMPLE_CGROUP = false := by decide
  have h22 : hasFlag stLbrStack PERF_SAMPLE_DATA_PAGE_SIZE = false := by decide
  have h23 : hasFlag stLbrStack PERF_SAMPLE_CODE_PAGE_SIZE = false := by decide
  have h24 : hasFlag stLbrStack PERF_SAMPLE_AUX = false := by decide
  refine ⟨fun bst r h => by rw [hLbr bst r h], ?_, ?_, ?_⟩
  · intro dump dyn rest misc rf ur ir bst hpos hlen hdyn hdl
    unfold sampleFromPtr
    rw [h1, h2, h3, h4, h5, h6, h7, h8, h9, h10, h11, h12, h13, h14, h15,
      h16, h17, h18, h19, h20, h21, h22, h23, h24]
    simp only [rdCodeAddr_ff, rdTask_ff, rdOptU64_ff, rdCpu_ff, rdStatOpt_ff,
      rdCallChain_ff, rdRaw_ff, rdLbr_tt, hLbr0, rdRegs_ff, exbind_ok,
      rdUserStack_tt dump dyn rest _ hpos hlen hdyn hdl, rdWeight_ff,
      rdDataSource_ff, rdTxn_ff, rdAux_ff, expure]
    rfl
  · intro rest misc rf ur ir bst
    unfold sampleFromPtr
    rw [h1, h2, h3, h4, h5, h6, h7, h8, h9, h10, h11, h12, h13, h14, h15,
      h16, h17, h18, h19, h20, h21, h22, h23, h24]
    simp only [rdCodeAddr_ff, rdTask_ff, rdOptU64_ff, rdCpu_ff, rdStatOpt_ff,
      rdCallChain_ff, rdRaw_ff, rdLbr_tt, hLbr0, rdRegs_ff, exbind_ok,
      rdUserStack_tt0, rdWeight_ff, rdDataSource_ff, rdTxn_ff, rdAux_ff, expure]
    rfl
  · intro dump dyn rest misc rf ur ir bst hpos hlen hdyn hgt
    unfold sampleFromPtr
    rw [h1, h2, h3, h4, h5, h6, h7, h8, h9, h10, h11, h12, h13, h14, h15,
      h16, h17, h18, h19, h20, h21, h22, h23, h24]
    simp only [rdCodeAddr_ff, rdTask_ff, rdOptU64_ff, rdCpu_ff, rdStatOpt_ff,
      rdCallChain_ff, rdRaw_ff, rdLbr_tt, hLbr0, rdRegs_ff, exbind_ok,
      rdUserStack_tt_err dump dyn rest _ hpos hlen hdyn hgt, exbind_err]

theorem sample_content_dependent_witness :
    (parseLbr 0 ⟨leBytes 8 0 ++ [5, 6], 0⟩).1 = none ∧
    (0 < ([1, 2, 3] : List Nat).length ∧ ([1, 2, 3] : List Nat).length < 2 ^ 64 ∧
      (2 : Nat) < 2 ^ 64 ∧ 2 ≤ ([1, 2, 3] : List Nat).length) ∧
    (sampleFromPtr
        ⟨leBytes 8 0 ++ (leBytes 8 ([1, 2, 3] : List Nat).length ++
          ([1, 2, 3] ++ (leBytes 8 2 ++ [9]))), 8⟩ 0 0 stLbrStack 0 0 0).map
        (fun s => (s.lbr, s.user_stack)) = .ok (none, some [1, 2]) ∧
    (sampleFromPtr ⟨leBytes 8 0 ++ (leBytes 8 0 ++ [9]), 8⟩ 0 0 stLbrStack 0 0 0).map
        (fun s => (s.lbr, s.user_stack)) = .ok (none, some []) ∧
    (([1, 2, 3] : List Nat).length < 5 ∧
      sampleFromPtr
        ⟨leBytes 8 0 ++ (leBytes 8 ([1, 2, 3] : List Nat).length ++
          ([1, 2, 3] ++ (leBytes 8 5 ++ [9]))), 8⟩ 0 0 stLbrStack 0 0 0 = .error ()) :=
  ⟨sample_content_dependent.1 0 ⟨leBytes 8 0 ++ [5, 6], 0⟩ (by decide),
    ⟨by decide, by decide, by decide, by decide⟩,
    sample_content_dependent.2.1 [1, 2, 3] 2 [9] 0 0 0 0 0 (by decide) (by decide)
      (by decide) (by decide),
    sample_content_dependent.2.2.1 [9] 0 0 0 0 0,
    ⟨by decide,
      sample_content_dependent.2.2.2 [1, 2, 3] 5 [9] 0 0 0 0 0 (by decide) (by decide)
        (by decide) (by decide)⟩⟩

end PerfSpec
